import Mathlib

/-!
Verification development for the FarmSense OS core
(`FarmSenseOS/src`): forensic integrity layer, time-series persistence,
recursive Bayesian soil filter, regression-kriging engine and VRI
controller, shallowly embedded in Lean 4.

Modelling conventions, used throughout:

* Python floats are embedded as exact rationals (`ℚ`).  The spec itself
  states its numeric invariants up to `1e-9`, and every claim settled
  here is robust to that reading.
* `hashlib.sha256(s).hexdigest()` is embedded as the injective,
  deterministic string encoding `sha256hex` below.  All claims about the
  hashing layer concern equality / inequality and propagation of
  digests, never the bit-level SHA-256 compression function, so the only
  properties of the digest the source relies on are determinism and
  (collision-freeness, i.e.) injectivity, which the encoding has by
  construction.
* `datetime.utcnow()` is threaded through the embedded functions as an
  explicit `now : String` argument: a "run" of an operation fixes the
  wall-clock strings it reads.
* Transcendental library functions of the numeric backend (`10 ** x`,
  `numpy.sqrt`) are taken as explicit function parameters of the
  embedding; each theorem that needs a property of them (positivity,
  strict monotonicity, the 5-metre comparison) takes it as a hypothesis
  that the real backend function satisfies.
* Python dicts with a statically known key set become structures; dicts
  used as heterogeneous key/value maps become association lists over the
  JSON value type `JVal`.
-/

/- Rational arithmetic is `@[irreducible]` in Batteries, which blocks
`decide`-style evaluation of the embedded functions on concrete inputs;
restore the default reducibility inside this file so that concrete
witnesses and counterexamples evaluate. -/
attribute [local semireducible] Rat.add Rat.mul Rat.inv Rat.sub

/-- JSON-serialisable values appearing in the canonical representations
the source hashes (`json.dumps(..., sort_keys=True, separators=(',',':'))`). -/
inductive JVal where
  | null : JVal
  | num (q : ℚ) : JVal
  | str (s : String) : JVal
deriving DecidableEq

/-- Rendering of a `JVal` into the canonical JSON text.  Numbers are
rendered through `ℚ`'s injective decimal-free printer: the embedding
only needs the rendering to be deterministic and injective, which
`toString : ℚ → String` is. -/
def JVal.render : JVal → String
  | .null => "null"
  | .num q => toString q
  | .str s => "\"" ++ s ++ "\""

/-- Model of `hashlib.sha256(canonical.encode()).hexdigest()`: an
injective, deterministic digest of the canonical string. -/
def sha256hex (canonical : String) : String :=
  "sha256:" ++ canonical

/-- `ForensicHasher.genesis_hash = "0" * 64`. -/
def genesis_hash : String :=
  "0000000000000000000000000000000000000000000000000000000000000000"

/-- Python `round(q, 6)`.  Ties (exactly at the 5·10⁻⁷ boundary) are
modelled half-up; no value hashed by a claim sits on a tie. -/
def pyRound6 (q : ℚ) : ℚ :=
  (⌊q * 1000000 + 1/2⌋ : ℤ) / 1000000

/-- Key lookup in a Python dict modelled as an association list:
`d[k]` / `k in d`. -/
def dictFind (d : List (String × JVal)) (k : String) : Option JVal :=
  (d.find? (fun p => p.1 == k)).map (·.2)

/-- One optional entry of the canonical dict of `hash_measurement`:
rendered (with its leading separator) when the key is present in
`additional_data`, empty otherwise. -/
def optEntry (additional_data : List (String × JVal)) (k : String) : String :=
  match dictFind additional_data k with
  | some v => ",\"" ++ k ++ "\":" ++ v.render
  | none => ""

/-- `ForensicHasher.hash_measurement`.  The canonical dict has the five
fixed keys `sensor_id, timestamp, depth_inches, vwc, previous_hash`,
plus those of `soil_temp_c, water_potential, signal_quality` present in
`additional_data`; `json.dumps(data, sort_keys=True)` emits the keys in
lexicographic order, written out below. -/
def hash_measurement (sensor_id timestamp : String) (depth_inches : ℤ)
    (vwc : ℚ) (previous_hash : String)
    (additional_data : List (String × JVal)) : String :=
  sha256hex <|
    "\x7b\"depth_inches\":" ++ toString depth_inches ++
    ",\"previous_hash\":\"" ++ previous_hash ++ "\"" ++
    ",\"sensor_id\":\"" ++ sensor_id ++ "\"" ++
    optEntry additional_data "signal_quality" ++
    optEntry additional_data "soil_temp_c" ++
    ",\"timestamp\":\"" ++ timestamp ++ "\"" ++
    ",\"vwc\":" ++ (JVal.num (pyRound6 vwc)).render ++
    optEntry additional_data "water_potential" ++
    "\x7d"

/-- The measurement dict returned by `create_measurement_with_integrity`. -/
structure Measurement where
  sensor_id : String
  timestamp : String
  depth_inches : ℤ
  volumetric_water_content : ℚ
  soil_temperature_c : Option ℚ
  soil_water_potential : Option ℚ
  measurement_hash : String
  previous_hash : String
  signature : String
  signal_quality : ℚ
deriving DecidableEq

/-- `Optional[float]` viewed as a JSON value (`None ↦ null`). -/
def joptNum : Option ℚ → JVal
  | none => JVal.null
  | some q => JVal.num q

/-- The key/value view of a `Measurement` dict, in insertion order of
`create_measurement_with_integrity`; it is what
`verify_chain_integrity` passes as `additional_data=measurement`. -/
def Measurement.toDict (m : Measurement) : List (String × JVal) :=
  [("sensor_id", .str m.sensor_id),
   ("timestamp", .str m.timestamp),
   ("depth_inches", .num (m.depth_inches : ℚ)),
   ("volumetric_water_content", .num m.volumetric_water_content),
   ("soil_temperature_c", joptNum m.soil_temperature_c),
   ("soil_water_potential", joptNum m.soil_water_potential),
   ("measurement_hash", .str m.measurement_hash),
   ("previous_hash", .str m.previous_hash),
   ("signature", .str m.signature),
   ("signal_quality", .num m.signal_quality)]

/-- `ForensicHasher.sign_hash` (no-key path returns the placeholder). -/
def sign_hash (signing_key : Option String) (hash_value : String)
    (key_id : String) : String :=
  match signing_key with
  | none => "unsigned:" ++ key_id
  | some key => "hmac:" ++ key_id ++ ":" ++ sha256hex (key ++ hash_value)

/-- `create_measurement_with_integrity`: hashes with
`additional_data = {'soil_temp_c': …, 'water_potential': …}` (both keys
present even when `None`) and returns the measurement dict. -/
def create_measurement_with_integrity (sensor_id : String)
    (depth_inches : ℤ) (vwc : ℚ) (previous_hash : String)
    (soil_temp_c water_potential : Option ℚ)
    (signer_key : Option String) (now : String) : Measurement :=
  let mhash := hash_measurement sensor_id now depth_inches vwc previous_hash
    [("soil_temp_c", joptNum soil_temp_c),
     ("water_potential", joptNum water_potential)]
  { sensor_id := sensor_id
    timestamp := now
    depth_inches := depth_inches
    volumetric_water_content := vwc
    soil_temperature_c := soil_temp_c
    soil_water_potential := water_potential
    measurement_hash := mhash
    previous_hash := previous_hash
    signature := sign_hash signer_key mhash sensor_id
    signal_quality := 1 }

/-- The report dict returned by `ForensicHasher.verify_chain_integrity`
(per-record entries elided; the claims read the aggregate fields). -/
structure VerifyReport where
  valid : Bool
  chain_length : ℕ
  valid_hashes : ℕ
  expected_final_hash : String
  computed_final_hash : String
  chain_intact : Bool
deriving DecidableEq

/-- The recomputation loop of `verify_chain_integrity`: rolls the
`previous_hash` forward through the recomputed hashes, counting records
whose recomputed hash equals the stored `measurement_hash`. -/
def verifyLoop : List Measurement → String → ℕ → ℕ → (String × ℕ × ℕ)
  | [], previous_hash, total, validCount => (previous_hash, total, validCount)
  | m :: rest, previous_hash, total, validCount =>
    let computed := hash_measurement m.sensor_id m.timestamp m.depth_inches
      m.volumetric_water_content previous_hash m.toDict
    verifyLoop rest computed (total + 1)
      (validCount + if computed = m.measurement_hash then 1 else 0)

/-- `ForensicHasher.verify_chain_integrity` (non-empty case; the empty
case returns the error report with `valid = False`). -/
def verify_chain_integrity (measurements : List Measurement)
    (expected_first_hash expected_last_hash : String) : VerifyReport :=
  match measurements with
  | [] =>
    { valid := false, chain_length := 0, valid_hashes := 0,
      expected_final_hash := expected_last_hash,
      computed_final_hash := "", chain_intact := false }
  | _ :: _ =>
    let r := verifyLoop measurements expected_first_hash 0 0
    let finalHash := r.1
    let total := r.2.1
    let validHashes := r.2.2
    let chainValid := finalHash = expected_last_hash
    { valid := chainValid && validHashes == total
      chain_length := total
      valid_hashes := validHashes
      expected_final_hash := expected_last_hash
      computed_final_hash := finalHash
      chain_intact := chainValid }

/-- One level of the Merkle reduction in `_compute_merkle_root`: pairs
left/right, duplicating the last element of an odd level. -/
def mergeLevel : List String → List String
  | [] => []
  | [x] => [sha256hex (x ++ x)]
  | x :: y :: rest => sha256hex (x ++ y) :: mergeLevel rest

/-- The `while len(current_level) > 1` reduction of
`_compute_merkle_root`, structured with an explicit iteration bound:
each level at least halves the list, so `fuel = initial length` is
never exhausted and the function is extensionally the source loop. -/
def merkleReduce : ℕ → List String → String
  | _, [] => genesis_hash
  | _, [x] => x
  | 0, x :: _ => x
  | fuel + 1, x :: y :: rest => merkleReduce fuel (mergeLevel (x :: y :: rest))

/-- `ForensicHasher._compute_merkle_root`. -/
def compute_merkle_root (hashes : List String) : String :=
  match hashes with
  | [] => genesis_hash
  | [x] => x
  | l => merkleReduce l.length l

/-- The per-measurement chaining loop of `hash_batch`: hashes each
measurement with the running previous hash (`additional_data` is the
whole measurement dict) and collects the hashes in order. -/
def batchHashes : List Measurement → String → List String
  | [], _ => []
  | m :: rest, current_previous =>
    let mhash := hash_measurement m.sensor_id m.timestamp m.depth_inches
      m.volumetric_water_content current_previous m.toDict
    mhash :: batchHashes rest mhash

/-- `ForensicHasher.hash_batch`, returning `(batch_hash, merkle_root)`.
An empty batch short-circuits to `(previous_hash, previous_hash)`.  The
batch canonical dict's keys are emitted in `sort_keys=True` order. -/
def hash_batch (measurements : List Measurement)
    (previous_hash timestamp : String) : String × String :=
  match measurements with
  | [] => (previous_hash, previous_hash)
  | _ :: _ =>
    let measurement_hashes := batchHashes measurements previous_hash
    let merkle_root := compute_merkle_root measurement_hashes
    let canonical :=
      "\x7b\"count\":" ++ toString measurements.length ++
      ",\"first_hash\":\"" ++ measurement_hashes.headI ++ "\"" ++
      ",\"last_hash\":\"" ++ measurement_hashes.getLastD "" ++ "\"" ++
      ",\"merkle_root\":\"" ++ merkle_root ++ "\"" ++
      ",\"previous_batch_hash\":\"" ++ previous_hash ++ "\"" ++
      ",\"timestamp\":\"" ++ timestamp ++ "\"" ++
      "\x7d"
    (sha256hex canonical, merkle_root)

/-- The persistent state of `TimeSeriesStore`: the `measurements` table
(rows in insertion order) and the single `chain_state` row (`id = 1`).
`_init_database` seeds the chain state with the genesis hash. -/
structure TimeSeriesStore where
  measurements : List Measurement := []
  last_hash : String := genesis_hash
  total_records : ℕ := 0
deriving DecidableEq

/-- `sqlite3` errors surfaced to `store_measurement`. -/
inductive SqlError where
  | integrityError : SqlError
deriving DecidableEq

/-- The `INSERT INTO measurements ...` statement: the `UNIQUE`
constraint on `measurement_hash` raises `IntegrityError` on a duplicate
own-hash; otherwise the row is appended (within the open transaction). -/
def insertMeasurementRow (s : TimeSeriesStore) (m : Measurement) :
    Except SqlError TimeSeriesStore :=
  if s.measurements.any (fun r => r.measurement_hash == m.measurement_hash) then
    .error .integrityError
  else
    .ok { s with measurements := s.measurements ++ [m] }

/-- The `UPDATE chain_state SET last_hash = ?, total_records =
total_records + 1 WHERE id = 1` statement. -/
def updateChainState (s : TimeSeriesStore) (h : String) : TimeSeriesStore :=
  { s with last_hash := h, total_records := s.total_records + 1 }

/-- `TimeSeriesStore.store_measurement`: both statements run in one
transaction and `conn.commit()` only runs after both succeed; on
`IntegrityError` (duplicate hash) the exception handler returns `False`
and the connection closes without commit, rolling the transaction back,
so the pre-call state is kept. -/
def store_measurement (s : TimeSeriesStore) (m : Measurement) :
    TimeSeriesStore × Bool :=
  match insertMeasurementRow s m with
  | .error _ => (s, false)
  | .ok s1 => (updateChainState s1 m.measurement_hash, true)

/-- `MoistureState` of the recursive Bayesian filter. -/
structure MoistureState where
  latitude : ℚ
  longitude : ℚ
  depth_inches : ℤ
  predicted_vwc : ℚ
  prediction_variance : ℚ
  confidence : ℚ
  timestamp : String
deriving DecidableEq

/-- `SoilCoefficients` with the dataclass defaults
(ksat 10 cm/hr, θ_fc 0.25, θ_pwp 0.08, texture 0.33/0.33/0.34,
variance 0.1). -/
structure SoilCoefficients where
  zone_id : String
  ksat : ℚ := 10
  field_capacity : ℚ := 1/4
  wilting_point : ℚ := 2/25
  sand_ratio : ℚ := 33/100
  silt_ratio : ℚ := 33/100
  clay_ratio : ℚ := 17/50
  coefficient_variance : ℚ := 1/10
  update_count : ℕ := 0
deriving DecidableEq

/-- `SoilCoefficients._recalculate_hydraulics`.  The float power
`10 ** e` is the backend parameter `pow10` (see the header):
`ksat = pow10(-0.6 + 1.3*sand - 0.6*clay) * 100`. -/
def recalculate_hydraulics (pow10 : ℚ → ℚ) (c : SoilCoefficients) :
    SoilCoefficients :=
  { c with
    ksat := pow10 (-(3/5) + (13/10) * c.sand_ratio - (3/5) * c.clay_ratio) * 100
    field_capacity := 2576/10000 - (2/1000) * c.sand_ratio + (36/10000) * c.clay_ratio
    wilting_point := 26/1000 + (5/1000) * c.clay_ratio }

/-- The bounded textural shift of `update_from_residual`:
±learning_rate·0.05 toward clay (positive residual) or sand (negative),
with sand ∈ [0.1, 0.8] and clay ∈ [0.1, 0.6] clamps. -/
def shiftTexture (c : SoilCoefficients) (residual learning_rate : ℚ) :
    SoilCoefficients :=
  if 0 < residual then
    { c with
      clay_ratio := min (3/5) (c.clay_ratio + learning_rate * (1/20))
      sand_ratio := max (1/10) (c.sand_ratio - learning_rate * (1/20)) }
  else
    { c with
      sand_ratio := min (4/5) (c.sand_ratio + learning_rate * (1/20))
      clay_ratio := max (1/10) (c.clay_ratio - learning_rate * (1/20)) }

/-- The re-normalisation step of `update_from_residual`: divide each
fraction by their total. -/
def renormalizeTexture (c1 : SoilCoefficients) : SoilCoefficients :=
  let total := c1.sand_ratio + c1.silt_ratio + c1.clay_ratio
  { c1 with
    sand_ratio := c1.sand_ratio / total
    silt_ratio := c1.silt_ratio / total
    clay_ratio := c1.clay_ratio / total }

/-- `SoilCoefficients.update_from_residual`: no change within 2 pp VWC;
otherwise shift the bounded textural fractions by ±learning_rate·0.05,
renormalise to sum 1, recompute the hydraulics, bump the update count
and shrink the coefficient variance by ×0.95. -/
def update_from_residual (pow10 : ℚ → ℚ) (c : SoilCoefficients)
    (residual learning_rate : ℚ) : SoilCoefficients :=
  if |residual| < 1/50 then c
  else
    let c3 := recalculate_hydraulics pow10
      (renormalizeTexture (shiftTexture c residual learning_rate))
    { c3 with
      update_count := c3.update_count + 1
      coefficient_variance := c3.coefficient_variance * (19/20) }

/-- The inductive soil-parameter invariant of §8: positive textural
fractions summing to 1 exactly, ordered water constants
θ_pwp ≤ θ_fc ≤ 0.5, and positive K_sat. -/
def soilInv (c : SoilCoefficients) : Prop :=
  0 < c.sand_ratio ∧ 0 < c.silt_ratio ∧ 0 < c.clay_ratio ∧
  c.sand_ratio + c.silt_ratio + c.clay_ratio = 1 ∧
  c.wilting_point ≤ c.field_capacity ∧ c.field_capacity ≤ 1/2 ∧ 0 < c.ksat

/-- The coefficients `get_or_create_coefficients` creates on first
reference to a zone. -/
def defaultCoefficients (zone_id : String) : SoilCoefficients :=
  { zone_id := zone_id }

/-- A sequence of calls to `update_from_residual` on one zone's
coefficients, each with its residual and learning rate. -/
def applyResidualUpdates (pow10 : ℚ → ℚ) (c : SoilCoefficients)
    (updates : List (ℚ × ℚ)) : SoilCoefficients :=
  updates.foldl (fun acc u => update_from_residual pow10 acc u.1 u.2) c

/-- First-match lookup in a Python dict modelled as an association
list. -/
def lookupAssoc {α : Type} (l : List (String × α)) (k : String) : Option α :=
  (l.find? (fun p => p.1 == k)).map (·.2)

/-- Python dict assignment `d[k] = v`: replaces the value in place when
the key exists, otherwise appends (insertion order preserved). -/
def setAssoc {α : Type} (l : List (String × α)) (k : String) (v : α) :
    List (String × α) :=
  if l.any (fun p => p.1 == k) then
    l.map (fun p => if p.1 == k then (k, v) else p)
  else
    l ++ [(k, v)]

/-- The state of `RecursiveBayesianFilter` (defaults: update threshold
0.03, learning rate 0.05). -/
structure RecursiveBayesianFilter where
  update_threshold : ℚ := 3/100
  learning_rate : ℚ := 1/20
  coefficients : List (String × SoilCoefficients) := []
  last_predictions : List (String × MoistureState) := []
  total_predictions : ℕ := 0
  total_updates : ℕ := 0

/-- `RecursiveBayesianFilter.get_or_create_coefficients`. -/
def get_or_create_coefficients (f : RecursiveBayesianFilter)
    (zone_id : String) : RecursiveBayesianFilter × SoilCoefficients :=
  match lookupAssoc f.coefficients zone_id with
  | some c => (f, c)
  | none =>
    let c := defaultCoefficients zone_id
    ({ f with coefficients := f.coefficients ++ [(zone_id, c)] }, c)

/-- `RecursiveBayesianFilter.predict`: water-balance prediction from
the cached last prediction (or θ_fc), ET loss, drainage above θ_fc,
clamped to [θ_pwp, 0.5], with time-grown variance. -/
def predict (f : RecursiveBayesianFilter) (zone_id : String)
    (latitude longitude : ℚ) (depth_inches : ℤ)
    (et_rate_mm_day hours_since_last : ℚ) (now : String) :
    RecursiveBayesianFilter × MoistureState :=
  let fc := get_or_create_coefficients f zone_id
  let f1 := fc.1
  let coeffs := fc.2
  let key := zone_id ++ "_" ++ toString depth_inches
  let baseline_vwc :=
    match lookupAssoc f1.last_predictions key with
    | some st => st.predicted_vwc
    | none => coeffs.field_capacity
  let et_fraction : ℚ :=
    if depth_inches ≤ 18 then 3/5 else if depth_inches ≤ 36 then 3/10 else 1/10
  let et_loss := (et_rate_mm_day / 24 * hours_since_last) / 1000 * et_fraction
  let drainage : ℚ :=
    if coeffs.field_capacity < baseline_vwc then
      min (baseline_vwc - coeffs.field_capacity)
        (coeffs.ksat / 100 * (hours_since_last / 24) * (1/10))
    else 0
  let predicted_vwc :=
    max coeffs.wilting_point (min (1/2) (baseline_vwc - et_loss - drainage))
  let variance := coeffs.coefficient_variance * (1 + hours_since_last / 24)
  let confidence := 1 / (1 + variance)
  let state : MoistureState :=
    { latitude := latitude, longitude := longitude
      depth_inches := depth_inches
      predicted_vwc := predicted_vwc
      prediction_variance := variance
      confidence := confidence
      timestamp := now }
  ({ f1 with
      last_predictions := setAssoc f1.last_predictions key state
      total_predictions := f1.total_predictions + 1 }, state)

/-- The zone's coefficients as seen by `predict` (created on first
reference). -/
def zoneCoefficients (f : RecursiveBayesianFilter) (zone_id : String) :
    SoilCoefficients :=
  (get_or_create_coefficients f zone_id).2

/-- The baseline VWC of the spec's predict rule: the last
predicted (or observed) VWC cached for `(zone, depth)`, else θ_fc. -/
def predictBaseline (f : RecursiveBayesianFilter) (zone_id : String)
    (depth_inches : ℤ) : ℚ :=
  match lookupAssoc f.last_predictions (zone_id ++ "_" ++ toString depth_inches) with
  | some st => st.predicted_vwc
  | none => (zoneCoefficients f zone_id).field_capacity

/-- The spec's depth factor: f_depth = 0.6 for depth ≤ 18, 0.3 for
depth ≤ 36, else 0.1. -/
def fDepth (depth_inches : ℤ) : ℚ :=
  if depth_inches ≤ 18 then 3/5 else if depth_inches ≤ 36 then 3/10 else 1/10

/-- The spec's drainage term: min(excess, K_sat/100 · hours/24 · 0.1)
when the baseline exceeds field capacity, else 0. -/
def specDrainage (coeffs : SoilCoefficients) (baseline hours : ℚ) : ℚ :=
  if coeffs.field_capacity < baseline then
    min (baseline - coeffs.field_capacity)
      (coeffs.ksat / 100 * (hours / 24) * (1/10))
  else 0

/-- The predicted VWC exactly as the claim states it:
baseline − (ET·hours/24)·f_depth − drainage, clamped to [θ_pwp, 0.5]. -/
def specPredictedVwcClaim (f : RecursiveBayesianFilter) (zone_id : String)
    (depth_inches : ℤ) (et_rate_mm_day hours_since_last : ℚ) : ℚ :=
  let coeffs := zoneCoefficients f zone_id
  let baseline := predictBaseline f zone_id depth_inches
  let et_loss := (et_rate_mm_day * hours_since_last / 24) * fDepth depth_inches
  max coeffs.wilting_point
    (min (1/2) (baseline - et_loss - specDrainage coeffs baseline hours_since_last))

/-- The predicted VWC with the claim's ET-loss term corrected by the
source's mm→volumetric-fraction conversion:
ET loss = (ET·hours/24)/1000 · f_depth. -/
def specPredictedVwcAmended (f : RecursiveBayesianFilter) (zone_id : String)
    (depth_inches : ℤ) (et_rate_mm_day hours_since_last : ℚ) : ℚ :=
  let coeffs := zoneCoefficients f zone_id
  let baseline := predictBaseline f zone_id depth_inches
  let et_loss := (et_rate_mm_day * hours_since_last / 24) / 1000 * fDepth depth_inches
  max coeffs.wilting_point
    (min (1/2) (baseline - et_loss - specDrainage coeffs baseline hours_since_last))

/-- `ValveState` of the VRI controller. -/
inductive ValveState where
  | CLOSED | OPENING | OPEN | CLOSING | FAULT | MANUAL_OVERRIDE
deriving DecidableEq

/-- `IrrigationZoneStatus`. -/
inductive IrrigationZoneStatus where
  | NO_IRRIGATION_NEEDED
  | IRRIGATION_RECOMMENDED
  | IRRIGATION_ACTIVE
  | SATURATION_DETECTED
  | DEEP_PERCOLATION_RISK
deriving DecidableEq

/-- An `AuditLogger.log_event` record. -/
structure AuditEvent where
  event_type : String
  user_id : String
  details : List (String × JVal)
deriving DecidableEq

/-- `ZoneIrrigationDecision`. -/
structure ZoneIrrigationDecision where
  zone_id : String
  field_id : String
  current_avg_vwc : ℚ
  target_vwc : ℚ
  field_capacity : ℚ
  wilting_point : ℚ
  status : IrrigationZoneStatus
  recommended_duration_minutes : ℤ := 0
  confidence : ℚ := 0
  grid_cell_count : ℕ := 0
  cells_below_target : ℕ := 0
  cells_above_fc : ℕ := 0
  cells_at_risk : ℕ := 0
  max_duration_minutes : ℤ := 120
  timestamp : String := ""
deriving DecidableEq

/-- `ZoneIrrigationDecision.should_irrigate`. -/
def should_irrigate (d : ZoneIrrigationDecision) : Bool :=
  d.status == .IRRIGATION_RECOMMENDED &&
  decide ((7:ℚ)/10 < d.confidence) &&
  decide (0 < d.recommended_duration_minutes)

/-- The `soil_properties` dict passed to the zone analysis (`.get` with
defaults 0.25 / 0.08). -/
structure SoilProperties where
  field_capacity : Option ℚ := none
  wilting_point : Option ℚ := none
deriving DecidableEq

/-- An entry of `VRIController.active_irrigation`. -/
structure ActiveIrrigationInfo where
  started_at : String
  duration_minutes : ℤ
  target_vwc : ℚ
  valve_id : String
deriving DecidableEq

/-- The mutable state of a `VRIController`.  `has_audit_logger` models
whether an `audit_logger` object was passed to the constructor;
`audit_log` is the log that object appends to. -/
structure VRIController where
  valve_states : List (String × ValveState) := []
  active_irrigation : List (String × ActiveIrrigationInfo) := []
  has_audit_logger : Bool := true
  audit_log : List AuditEvent := []
deriving DecidableEq

/-- `self.deep_percolation_threshold = 0.42`, set unconditionally by
`VRIController.__init__` and never mutated. -/
def deep_percolation_threshold : ℚ := 21/50

/-- Python `int(x)`: truncation toward zero. -/
def pyInt (q : ℚ) : ℤ :=
  if 0 ≤ q then ⌊q⌋ else ⌈q⌉

/-- Python `max(iterable, default=d)`. -/
def listMaxD (l : List ℚ) (dflt : ℚ) : ℚ :=
  match l with
  | [] => dflt
  | x :: xs => xs.foldl max x

/-- `if self.audit_logger: self.audit_logger.log_event(...)`. -/
def emitIf (hasLogger : Bool) (e : AuditEvent) : List AuditEvent :=
  if hasLogger then [e] else []

/-- Python `round(q, 8)` (ties modelled half-up, as for `pyRound6`). -/
def pyRound8 (q : ℚ) : ℚ :=
  (⌊q * 100000000 + 1/2⌋ : ℤ) / 100000000

/-- `KrigingCell`: one cell of the 1-metre virtual grid. -/
structure KrigingCell where
  cell_id : String
  field_id : String
  latitude : ℚ
  longitude : ℚ
  depth_inches : ℤ
  estimated_vwc : ℚ
  estimation_variance : ℚ
  confidence : ℚ
  is_hard_anchor : Bool := false
  anchor_sensor_id : Option String := none
  satellite_trend_value : Option ℚ := none
  cell_hash : Option String := none
deriving DecidableEq

/-- `KrigingCell.compute_hash`: canonical JSON (keys in
`sort_keys=True` order) over the cell data *and the wall clock*
(`'timestamp': datetime.utcnow().isoformat()`), hashed. -/
def KrigingCell.computeHash (c : KrigingCell) (now : String) : String :=
  sha256hex <|
    "\x7b\"cell_id\":\"" ++ c.cell_id ++ "\"" ++
    ",\"depth\":" ++ toString c.depth_inches ++
    ",\"field_id\":\"" ++ c.field_id ++ "\"" ++
    ",\"lat\":" ++ (JVal.num (pyRound8 c.latitude)).render ++
    ",\"lon\":" ++ (JVal.num (pyRound8 c.longitude)).render ++
    ",\"timestamp\":\"" ++ now ++ "\"" ++
    ",\"variance\":" ++ (JVal.num (pyRound8 c.estimation_variance)).render ++
    ",\"vwc\":" ++ (JVal.num (pyRound6 c.estimated_vwc)).render ++
    "\x7d"

/-- `VRIController.analyze_zone_for_irrigation`: zone statistics from
the grid cells, then the first-match rule chain (deep percolation →
saturation → recommendation → none); returns the updated controller
(audit log) and the decision. -/
def analyze_zone_for_irrigation (c : VRIController)
    (zone_id field_id : String) (grid_cells : List KrigingCell)
    (soil_properties : SoilProperties) (now : String) :
    VRIController × ZoneIrrigationDecision :=
  match grid_cells with
  | [] =>
    (c,
     { zone_id := zone_id, field_id := field_id
       current_avg_vwc := 0
       target_vwc := soil_properties.field_capacity.getD (1/4)
       field_capacity := soil_properties.field_capacity.getD (1/4)
       wilting_point := soil_properties.wilting_point.getD (2/25)
       status := .NO_IRRIGATION_NEEDED
       confidence := 0
       timestamp := now })
  | _ :: _ =>
    let vwc_values := grid_cells.map (·.estimated_vwc)
    let n : ℚ := (vwc_values.length : ℚ)
    let avg_vwc := vwc_values.sum / n
    let fc := soil_properties.field_capacity.getD (1/4)
    let wp := soil_properties.wilting_point.getD (2/25)
    let target_vwc := fc * (9/10)
    let cells_below_target := vwc_values.countP (fun v => decide (v < target_vwc))
    let cells_above_fc := vwc_values.countP (fun v => decide (fc < v))
    let deep_cells := grid_cells.filter (fun cell => decide ((42:ℤ) ≤ cell.depth_inches))
    let cells_at_deep_risk :=
      deep_cells.countP (fun cell => decide (deep_percolation_threshold < cell.estimated_vwc))
    let branch : IrrigationZoneStatus × ℤ × List AuditEvent :=
      if 0 < cells_at_deep_risk then
        (.DEEP_PERCOLATION_RISK, 0,
         emitIf c.has_audit_logger
           { event_type := "deep_percolation_alert"
             user_id := "system"
             details :=
               [("zone_id", .str zone_id), ("field_id", .str field_id),
                ("risk_cells", .num (cells_at_deep_risk : ℚ)),
                ("max_vwc", .num (listMaxD (deep_cells.map (·.estimated_vwc)) 0))] })
      else if n * (1/2) < (cells_above_fc : ℚ) then
        (.SATURATION_DETECTED, 0, [])
      else if avg_vwc < target_vwc ∧ n * (3/10) < (cells_below_target : ℚ) then
        let deficit := target_vwc - avg_vwc
        (.IRRIGATION_RECOMMENDED, min (pyInt (deficit * 100 * 15)) 120, [])
      else
        (.NO_IRRIGATION_NEEDED, 0, [])
    let confidence : ℚ :=
      if 1 < vwc_values.length then
        let variance := (vwc_values.map (fun v => (v - avg_vwc) ^ 2)).sum / n
        max (1/2) (1 - variance * 10)
      else 1/2
    ({ c with audit_log := c.audit_log ++ branch.2.2 },
     { zone_id := zone_id, field_id := field_id
       current_avg_vwc := avg_vwc
       target_vwc := target_vwc
       field_capacity := fc
       wilting_point := wp
       status := branch.1
       recommended_duration_minutes := branch.2.1
       confidence := confidence
       grid_cell_count := grid_cells.length
       cells_below_target := cells_below_target
       cells_above_fc := cells_above_fc
       cells_at_risk := cells_at_deep_risk
       timestamp := now })

/-- `VRIController.manual_override`: logs the override (when a logger
is attached), then sets the valve to `MANUAL_OVERRIDE` on `'open'` and
`CLOSED` otherwise; always returns `True`. -/
def manual_override (c : VRIController) (valve_id command user_id reason : String)
    (duration_minutes : Option ℤ) (now : String) : VRIController × Bool :=
  let events := emitIf c.has_audit_logger
    { event_type := "irrigation_override"
      user_id := user_id
      details :=
        [("field_id", .str "unknown"), ("zone_id", .str "unknown"),
         ("override_type", .str "manual"), ("reason", .str reason),
         ("duration_minutes", .num ((duration_minutes.getD 0 : ℤ) : ℚ)),
         ("timestamp_utc", .str now)] }
  let new_state := if command == "open" then ValveState.MANUAL_OVERRIDE else ValveState.CLOSED
  ({ c with
      audit_log := c.audit_log ++ events
      valve_states := setAssoc c.valve_states valve_id new_state }, true)

/-- One iteration of the `emergency_stop_all` loop over an
`active_irrigation` entry: log an `emergency_stop` event (when a logger
is attached) and set that entry's valve to `CLOSED`. -/
def emergencyStopStep (user_id : String) (acc : VRIController)
    (zi : String × ActiveIrrigationInfo) : VRIController :=
  { acc with
    audit_log := acc.audit_log ++ emitIf acc.has_audit_logger
      { event_type := "emergency_stop"
        user_id := user_id
        details :=
          [("zone_id", .str zi.1), ("valve_id", .str zi.2.valve_id),
           ("reason", .str "emergency_stop_all")] }
    valve_states := setAssoc acc.valve_states zi.2.valve_id .CLOSED }

/-- `VRIController.emergency_stop_all`: for each entry of
`active_irrigation` (and only those), log an `emergency_stop` event and
set that entry's valve to `CLOSED`; finally clear `active_irrigation`. -/
def emergency_stop_all (c : VRIController) (user_id : String) : VRIController :=
  let c1 := c.active_irrigation.foldl (emergencyStopStep user_id) c
  { c1 with active_irrigation := [] }

/-- Variogram parameters fixed by `RegressionKrigingEngine.__init__`:
nugget 0.001, sill 0.05, range 150 m; trend weight 0.3. -/
def variogram_nugget : ℚ := 1/1000

/-- Spherical variogram sill. -/
def variogram_sill : ℚ := 1/20

/-- Spherical variogram range in metres. -/
def variogram_range : ℚ := 150

/-- Weight of the satellite trend in regression kriging. -/
def kriging_trend_weight : ℚ := 3/10

/-- `RegressionKrigingEngine._variogram_model` (spherical). -/
def variogram_model (h : ℚ) : ℚ :=
  if h ≤ variogram_range then
    variogram_nugget +
      variogram_sill * ((3/2) * h / variogram_range - (1/2) * (h / variogram_range) ^ 3)
  else
    variogram_nugget + variogram_sill

/-- The squared local-metre distance of `_distance_matrix`
(lat scale 111000 m/°, lon scale 86000 m/°); the backend's
`numpy.sqrt` of it is taken as the `np_sqrt` parameter. -/
def sqDistMeters (lat1 lon1 lat2 lon2 : ℚ) : ℚ :=
  ((lat1 - lat2) * 111000) ^ 2 + ((lon1 - lon2) * 86000) ^ 2

/-- Helper of `argminIdx`: running first-minimum index. -/
def argminAux : ℕ → ℕ → ℚ → List ℚ → ℕ
  | _, best, _, [] => best
  | i, best, bestVal, x :: xs =>
    if x < bestVal then argminAux (i + 1) i x xs
    else argminAux (i + 1) best bestVal xs

/-- `numpy.argmin`: index of the first minimal element (0 on the empty
list, which the source never hits). -/
def argminIdx : List ℚ → ℕ
  | [] => 0
  | x :: xs => argminAux 1 0 x xs

/-- `numpy.linspace(a, b, n)` with endpoint. -/
def linspace (a b : ℚ) (n : ℕ) : List ℚ :=
  if n = 0 then []
  else if n = 1 then [a]
  else (List.range n).map (fun i => a + (b - a) * (i : ℚ) / ((n : ℚ) - 1))

/-- A sensor reading dict as consumed by the kriging engine. -/
structure SensorMeasurement where
  sensor_id : String
  latitude : ℚ
  longitude : ℚ
  depth_inches : ℤ
  vwc : ℚ
deriving DecidableEq

/-- `_build_kriging_system`: the variogram matrix over the sensor
coordinates augmented with the Lagrange row/column of ones and a zero
corner. -/
def kriging_K (np_sqrt : ℚ → ℚ) (coords : List (ℚ × ℚ)) : List (List ℚ) :=
  let n := coords.length
  (List.range (n + 1)).map (fun i =>
    (List.range (n + 1)).map (fun j =>
      if i < n ∧ j < n then
        let p := coords.getD i (0, 0)
        let q := coords.getD j (0, 0)
        variogram_model (np_sqrt (sqDistMeters p.1 p.2 q.1 q.2))
      else if i = n ∧ j = n then 0
      else 1))

/-- Matrix–vector product `K_inv @ k_lagrange`. -/
def matVec (m : List (List ℚ)) (v : List ℚ) : List ℚ :=
  m.map (fun row => (List.zipWith (· * ·) row v).sum)

/-- Python `f"{count:05d}"`. -/
def pad5 (count : ℕ) : String :=
  let s := toString count
  String.mk (List.replicate (5 - s.length) '0') ++ s

/-- `f"{field_id}_{depth_inches}in_{cell_count:05d}"`. -/
def mkCellId (field_id : String) (depth_inches : ℤ) (count : ℕ) : String :=
  field_id ++ "_" ++ toString depth_inches ++ "in_" ++ pad5 count

/-- The body of the grid loop of `generate_virtual_grid` for one grid
point: the `_check_sensor_location` hard-anchor test (strictly within
5 m of the closest probe, by `numpy.argmin` over the probe distances),
then either the exact probe value (variance 0, confidence 1) or the
universal-kriging estimate.  The probe-distance row is computed once
here; the source computes the identical expression in both branches. -/
def gridPointCell (np_sqrt : ℚ → ℚ) (field_id : String) (depth_inches : ℤ)
    (satellite_trend : Option (ℚ → ℚ → ℚ))
    (sensor_coords : List (ℚ × ℚ)) (sensor_values : List ℚ)
    (sensor_ids : List String) (detrended_values : List ℚ)
    (K_inv : List (List ℚ)) (lat lon : ℚ) (count : ℕ) : KrigingCell :=
  let dists := sensor_coords.map (fun sc => np_sqrt (sqDistMeters lat lon sc.1 sc.2))
  let min_dist_idx := argminIdx dists
  let min_dist := dists.getD min_dist_idx 0
  if min_dist < 5 then
    let anchor_sensor := sensor_ids.getD min_dist_idx "unknown"
    let sensor_idx := sensor_ids.findIdx (fun s => s == anchor_sensor)
    { cell_id := mkCellId field_id depth_inches count
      field_id := field_id
      latitude := lat, longitude := lon
      depth_inches := depth_inches
      estimated_vwc := sensor_values.getD sensor_idx 0
      estimation_variance := 0
      confidence := 1
      is_hard_anchor := true
      anchor_sensor_id := some anchor_sensor
      satellite_trend_value := satellite_trend.map (fun t => t lat lon)
      cell_hash := none }
  else
    let k_variogram := dists.map variogram_model
    let k_lagrange := k_variogram ++ [1]
    let weights := matVec K_inv k_lagrange
    let kriging_weights := weights.take sensor_values.length
    let detrended_estimate := (List.zipWith (· * ·) kriging_weights detrended_values).sum
    let trend_value : ℚ := match satellite_trend with
      | some t => t lat lon
      | none => 0
    let variance :=
      max 0 (variogram_sill + variogram_nugget -
        (List.zipWith (· * ·) kriging_weights k_variogram).sum)
    { cell_id := mkCellId field_id depth_inches count
      field_id := field_id
      latitude := lat, longitude := lon
      depth_inches := depth_inches
      estimated_vwc := detrended_estimate + kriging_trend_weight * trend_value
      estimation_variance := variance
      confidence := 1 / (1 + variance * 10)
      is_hard_anchor := false
      anchor_sensor_id := none
      satellite_trend_value := some trend_value
      cell_hash := none }

/-- The nested `for i, lat / for j, lon` loops with their running
`cell_count`, written as an enumerated flattening: the cell at row `i`,
column `j` has `cell_count = i·|lon_grid| + j`, exactly the order the
loop counts in. -/
def gridCells (mk : ℚ → ℚ → ℕ → KrigingCell)
    (lat_grid lon_grid : List ℚ) : List KrigingCell :=
  (lat_grid.enum.map (fun il =>
    lon_grid.enum.map (fun jl =>
      mk il.2 jl.2 (il.1 * lon_grid.length + jl.1)))).flatten

/-- `_fallback_interpolation` (inverse-distance weighting, used with
fewer than 3 probes at the depth): when no probe matches the depth a
synthetic centre reading of VWC 0.20 is used (its dict carries only
location and value; `sensor_id`/depth are never read from it). -/
def fallback_interpolation (np_sqrt : ℚ → ℚ) (field_id : String)
    (min_lat min_lon max_lat max_lon : ℚ) (n_lat n_lon : ℕ)
    (sensor_measurements : List SensorMeasurement) (depth_inches : ℤ) :
    List KrigingCell :=
  let relevant0 := sensor_measurements.filter (fun m => m.depth_inches == depth_inches)
  let relevant :=
    if relevant0.isEmpty then
      [{ sensor_id := "", latitude := (min_lat + max_lat) / 2,
         longitude := (min_lon + max_lon) / 2, depth_inches := depth_inches,
         vwc := 1/5 : SensorMeasurement }]
    else relevant0
  let lat_grid := linspace min_lat max_lat n_lat
  let lon_grid := linspace min_lon max_lon n_lon
  gridCells
    (fun lat lon count =>
      let dists := relevant.map (fun m => np_sqrt (sqDistMeters lat lon m.latitude m.longitude))
      let weights0 := dists.map (fun d => 1 / (d + 1))
      let wsum := weights0.sum
      let weights := weights0.map (fun w => w / wsum)
      { cell_id := mkCellId field_id depth_inches count
        field_id := field_id
        latitude := lat, longitude := lon
        depth_inches := depth_inches
        estimated_vwc := (List.zipWith (· * ·) weights (relevant.map (·.vwc))).sum
        estimation_variance := (dists.sum / (dists.length : ℚ)) / 1000
        confidence := 1/2
        cell_hash := none })
    lat_grid lon_grid

/-- `RegressionKrigingEngine.generate_virtual_grid` up to the per-cell
`compute_hash` call: grid sizing (with the 10 000-cell budget), depth
filtering, the < 3-probe fallback, detrending, the kriging system and
the cell loop.  `np_sqrt` models the backend `numpy.sqrt`; `matInv`
models `numpy.linalg.inv` with its `pinv` fallback (a deterministic
function of the matrix). -/
def generate_grid_cells (np_sqrt : ℚ → ℚ)
    (matInv : List (List ℚ) → List (List ℚ)) (grid_resolution : ℚ)
    (field_id : String) (field_bounds : ℚ × ℚ × ℚ × ℚ)
    (sensor_measurements : List SensorMeasurement)
    (satellite_trend : Option (ℚ → ℚ → ℚ)) (depth_inches : ℤ) :
    List KrigingCell :=
  let min_lat := field_bounds.1
  let min_lon := field_bounds.2.1
  let max_lat := field_bounds.2.2.1
  let max_lon := field_bounds.2.2.2
  let lat_meters := (max_lat - min_lat) * 111000
  let lon_meters := (max_lon - min_lon) * 86000
  let n_lat0 := pyInt (lat_meters / grid_resolution) + 1
  let n_lon0 := pyInt (lon_meters / grid_resolution) + 1
  let nsz : ℤ × ℤ :=
    if 10000 < n_lat0 * n_lon0 then
      let scale := np_sqrt (10000 / ((n_lat0 * n_lon0 : ℤ) : ℚ))
      (pyInt ((n_lat0 : ℚ) * scale), pyInt ((n_lon0 : ℚ) * scale))
    else (n_lat0, n_lon0)
  let n_lat := nsz.1.toNat
  let n_lon := nsz.2.toNat
  let relevant := sensor_measurements.filter (fun m => m.depth_inches == depth_inches)
  if relevant.length < 3 then
    fallback_interpolation np_sqrt field_id min_lat min_lon max_lat max_lon
      n_lat n_lon sensor_measurements depth_inches
  else
    let sensor_coords := relevant.map (fun m => (m.latitude, m.longitude))
    let sensor_values := relevant.map (·.vwc)
    let sensor_ids := relevant.map (·.sensor_id)
    let trend_at_sensors : List ℚ :=
      match satellite_trend with
      | some t => relevant.map (fun m => t m.latitude m.longitude)
      | none => relevant.map (fun _ => 0)
    let detrended_values :=
      List.zipWith (fun v t => v - kriging_trend_weight * t) sensor_values trend_at_sensors
    let K_inv := matInv (kriging_K np_sqrt sensor_coords)
    let lat_grid := linspace min_lat max_lat n_lat
    let lon_grid := linspace min_lon max_lon n_lon
    gridCells
      (gridPointCell np_sqrt field_id depth_inches satellite_trend
        sensor_coords sensor_values sensor_ids detrended_values K_inv)
      lat_grid lon_grid

/-- `generate_virtual_grid`: the cell loop followed, per cell, by
`cell.compute_hash()` at the wall clock `now` (the source hashes each
cell right after constructing it; the hash reads only the already-set
fields, so attaching it in a final pass is the identical function). -/
def generate_virtual_grid (np_sqrt : ℚ → ℚ)
    (matInv : List (List ℚ) → List (List ℚ)) (grid_resolution : ℚ)
    (field_id : String) (field_bounds : ℚ × ℚ × ℚ × ℚ)
    (sensor_measurements : List SensorMeasurement)
    (satellite_trend : Option (ℚ → ℚ → ℚ)) (depth_inches : ℤ)
    (now : String) : List KrigingCell :=
  (generate_grid_cells np_sqrt matInv grid_resolution field_id field_bounds
      sensor_measurements satellite_trend depth_inches).map
    (fun cell => { cell with cell_hash := some (cell.computeHash now) })

/-- A `KrigingCell` with its hash field cleared: the cell data the
claim's "bit-identical outputs" can soundly range over. -/
def KrigingCell.stripHash (c : KrigingCell) : KrigingCell :=
  { c with cell_hash := none }

/-- Index of the spec's "nearest probe" to a grid point: the first
probe minimising the (squared, hence monotone-equivalent) local-metre
distance. -/
def nearestProbeIdx (relevant : List SensorMeasurement) (lat lon : ℚ) : ℕ :=
  argminIdx (relevant.map (fun m => sqDistMeters lat lon m.latitude m.longitude))

/-- The nearest probe's reading. -/
def nearestProbeVwc (relevant : List SensorMeasurement) (lat lon : ℚ) : ℚ :=
  (relevant.map (·.vwc)).getD (nearestProbeIdx relevant lat lon) 0

/-- A fresh filter with the constructor defaults. -/
def defaultFilter : RecursiveBayesianFilter := {}

/-- Concrete measurement for the chain-verification failing input. -/
def mC1 : Measurement :=
  create_measurement_with_integrity "s1" 18 (1/5) genesis_hash none none none
    "2025-01-01T00:00:00"

/-- Concrete measurement for the store-idempotence witness. -/
def mC8 : Measurement :=
  create_measurement_with_integrity "s8" 24 (3/10) genesis_hash none none none
    "2025-02-02T00:00:00"

/-- A store already holding `mC8` (its own-hash is the chain head). -/
def storeC8 : TimeSeriesStore :=
  { measurements := [mC8], last_hash := mC8.measurement_hash, total_records := 1 }

/-- A deep grid cell above the percolation threshold (depth 42 in.,
VWC 0.50). -/
def cellC3 : KrigingCell :=
  { cell_id := "c3", field_id := "f", latitude := 0, longitude := 0,
    depth_inches := 42, estimated_vwc := 1/2, estimation_variance := 0,
    confidence := 1 }

/-- A single shallow cell with VWC 0.2246, marginally below the default
target 0.225. -/
def cellC5a : KrigingCell :=
  { cell_id := "c5a", field_id := "f", latitude := 0, longitude := 0,
    depth_inches := 18, estimated_vwc := 1123/5000, estimation_variance := 0,
    confidence := 1 }

/-- A single shallow cell with VWC 0.20 (deficit 0.025 → 37 min). -/
def cellC5b : KrigingCell :=
  { cell_id := "c5b", field_id := "f", latitude := 0, longitude := 0,
    depth_inches := 18, estimated_vwc := 1/5, estimation_variance := 0,
    confidence := 1 }

/-- A controller holding an OPEN valve that no entry of the
active-irrigation bookkeeping references. -/
def ctrlC4 : VRIController :=
  { valve_states := [("v1", ValveState.OPEN)] }

/-- A controller with one bookkept active zone on an OPEN valve. -/
def ctrlC4w : VRIController :=
  { valve_states := [("v1", ValveState.OPEN)]
    active_irrigation :=
      [("z1", { started_at := "T0", duration_minutes := 30, target_vwc := 9/40,
                valve_id := "v1" })] }

/-- A concrete backend square root for witnesses: strictly monotone on
the nonnegatives and agreeing with the real square root on the 5 m
anchor comparison (`x/5 < 5 ↔ x < 25`). -/
def npSqrtLinear (q : ℚ) : ℚ := q / 5

/-- Three probes at depth 18 with distinct ids; the first sits exactly
on the single grid point of the degenerate bounds `(0,0,0,0)`. -/
def probesC9 : List SensorMeasurement :=
  [{ sensor_id := "s1", latitude := 0, longitude := 0, depth_inches := 18, vwc := 1/5 },
   { sensor_id := "s2", latitude := 0, longitude := 1, depth_inches := 18, vwc := 3/10 },
   { sensor_id := "s3", latitude := 0, longitude := 2, depth_inches := 18, vwc := 2/5 }]

/-- The (hard-anchor) cell the engine generates at that grid point. -/
def cellC9 : KrigingCell :=
  { cell_id := "f_18in_00000", field_id := "f", latitude := 0, longitude := 0,
    depth_inches := 18, estimated_vwc := 1/5, estimation_variance := 0,
    confidence := 1, is_hard_anchor := true, anchor_sensor_id := some "s1",
    satellite_trend_value := none, cell_hash := none }

/-- C10: for every previous-batch hash `p` and timestamp `t`,
`hash_batch([], p, t)` returns `(p, p)` — no fresh batch hash is
computed and the reported Merkle root is the previous batch hash —
whereas `_compute_merkle_root([])` returns the genesis hash, so for
`p ≠ genesis` the two "empty" Merkle roots disagree. -/
theorem C10_hash_batch_empty (p t : String) (hp : p ≠ genesis_hash) :
    hash_batch [] p t = (p, p) ∧ compute_merkle_root [] = genesis_hash ∧
    (hash_batch [] p t).2 ≠ compute_merkle_root [] := by
  refine ⟨rfl, rfl, ?_⟩
  simpa [hash_batch, compute_merkle_root] using hp

/-- Witness for C10 at `p = "ab"`. -/
theorem C10_witness :
    ("ab" ≠ genesis_hash) ∧
    (hash_batch [] "ab" "t0" = ("ab", "ab") ∧
     compute_merkle_root [] = genesis_hash ∧
     (hash_batch [] "ab" "t0").2 ≠ compute_merkle_root []) :=
  ⟨by decide, C10_hash_batch_empty "ab" "t0" (by decide)⟩

/-- C1 (failing input): a one-measurement chain produced by
`create_measurement_with_integrity` starting from the genesis hash is
rejected by `verify_chain_integrity`: the recomputation passes the
stored dict as `additional_data`, whose keys (`soil_temperature_c`,
`soil_water_potential`, `signal_quality`) differ from those hashed at
creation (`soil_temp_c`, `water_potential`), so no recomputed hash
matches and the report has `valid = false`, `valid_hashes = 0`. -/
theorem C1_verify_rejects_created_chain :
    (verify_chain_integrity [mC1] genesis_hash mC1.measurement_hash).valid = false ∧
    (verify_chain_integrity [mC1] genesis_hash mC1.measurement_hash).chain_length = 1 ∧
    (verify_chain_integrity [mC1] genesis_hash mC1.measurement_hash).valid_hashes = 0 ∧
    (verify_chain_integrity [mC1] genesis_hash mC1.measurement_hash).computed_final_hash ≠
      mC1.measurement_hash := by
  refine ⟨?_, ?_, ?_, ?_⟩ <;> decide

/-- C8: `store_measurement` is atomic w.r.t. the chain-state row —
either the row is appended *and* the last-hash/count advance (returning
`True`), or the state is exactly the pre-call state (returning
`False`); re-storing the same measurement is a no-op returning `False`;
and a measurement whose own-hash is already stored is likewise a no-op
returning the distinct unsuccessful result. -/
theorem C8_store_measurement_atomic (s : TimeSeriesStore) (m : Measurement) :
    (((store_measurement s m).1 = s ∧ (store_measurement s m).2 = false) ∨
     ((store_measurement s m).1.measurements = s.measurements ++ [m] ∧
      (store_measurement s m).1.last_hash = m.measurement_hash ∧
      (store_measurement s m).1.total_records = s.total_records + 1 ∧
      (store_measurement s m).2 = true)) ∧
    store_measurement (store_measurement s m).1 m = ((store_measurement s m).1, false) ∧
    ((∃ r ∈ s.measurements, r.measurement_hash = m.measurement_hash) →
      store_measurement s m = (s, false)) := by
  by_cases h : s.measurements.any (fun r => r.measurement_hash == m.measurement_hash)
  · have hsm : store_measurement s m = (s, false) := by
      simp [store_measurement, insertMeasurementRow, h]
    refine ⟨Or.inl ⟨by rw [hsm], by rw [hsm]⟩, ?_, fun _ => hsm⟩
    rw [hsm, hsm]
  · have hsm : store_measurement s m =
        (updateChainState { s with measurements := s.measurements ++ [m] }
          m.measurement_hash, true) := by
      simp [store_measurement, insertMeasurementRow, h]
    refine ⟨Or.inr ⟨by rw [hsm]; rfl, by rw [hsm]; rfl, by rw [hsm]; rfl, by rw [hsm]⟩,
      ?_, ?_⟩
    · rw [hsm]
      have hdup : ((updateChainState { s with measurements := s.measurements ++ [m] }
          m.measurement_hash).measurements).any
            (fun r => r.measurement_hash == m.measurement_hash) = true := by
        simp [updateChainState]
      simp [store_measurement, insertMeasurementRow, hdup]
    · intro hex
      obtain ⟨r, hr, he⟩ := hex
      exact absurd (List.any_eq_true.mpr ⟨r, hr, by simp [he]⟩) h

/-- Witness for C8: storing `mC8` into a store already holding it is a
no-op returning `False`. -/
theorem C8_witness :
    store_measurement storeC8 mC8 = (storeC8, false) :=
  (C8_store_measurement_atomic storeC8 mC8).2.2 ⟨mC8, by simp [storeC8], rfl⟩

/-- `stripHash` ignores the hash just attached. -/
theorem stripHash_set (c : KrigingCell) (h : String) :
    KrigingCell.stripHash { c with cell_hash := some h } = KrigingCell.stripHash c := by
  rfl

/-- C2 (counterexample): two runs of `generate_virtual_grid` on
identical field, bounds, measurements, trend and depth — differing only
in the wall clock the source reads via `datetime.utcnow()` inside
`KrigingCell.compute_hash` — produce different outputs: every
`cell_hash` embeds the generation timestamp, so the output is not
bit-identical across runs and the grid Merkle root is not reproducible. -/
theorem C2_counterexample :
    generate_virtual_grid npSqrtLinear id 1 "f" (0, 0, 0, 0) [] none 18
        "2025-01-01T00:00:00" ≠
      generate_virtual_grid npSqrtLinear id 1 "f" (0, 0, 0, 0) [] none 18
        "2025-01-01T00:00:01" := by
  decide

/-- C2 (amended): grid generation is deterministic up to the hashed
generation timestamp — for any backend functions and inputs, two runs
agree on every cell field except `cell_hash`, and runs sharing the same
wall-clock string are bit-identical (so the Merkle root is reproducible
exactly when the generation timestamp is pinned). -/
theorem C2_deterministic_up_to_timestamp (np_sqrt : ℚ → ℚ)
    (matInv : List (List ℚ) → List (List ℚ)) (grid_resolution : ℚ)
    (field_id : String) (field_bounds : ℚ × ℚ × ℚ × ℚ)
    (sensor_measurements : List SensorMeasurement)
    (satellite_trend : Option (ℚ → ℚ → ℚ)) (depth_inches : ℤ)
    (t1 t2 : String) :
    (generate_virtual_grid np_sqrt matInv grid_resolution field_id field_bounds
        sensor_measurements satellite_trend depth_inches t1).map
        KrigingCell.stripHash =
      (generate_virtual_grid np_sqrt matInv grid_resolution field_id field_bounds
        sensor_measurements satellite_trend depth_inches t2).map
        KrigingCell.stripHash ∧
    (t1 = t2 →
      generate_virtual_grid np_sqrt matInv grid_resolution field_id field_bounds
          sensor_measurements satellite_trend depth_inches t1 =
        generate_virtual_grid np_sqrt matInv grid_resolution field_id field_bounds
          sensor_measurements satellite_trend depth_inches t2) := by
  constructor
  · simp only [generate_virtual_grid, List.map_map]
    apply List.map_congr_left
    intro c _
    simp [Function.comp, stripHash_set]
  · intro h
    rw [h]

/-- Witness for C2 (amended) at equal timestamps. -/
theorem C2_witness :
    generate_virtual_grid npSqrtLinear id 1 "f" (0, 0, 0, 0) [] none 18
        "2025-01-01T00:00:00" =
      generate_virtual_grid npSqrtLinear id 1 "f" (0, 0, 0, 0) [] none 18
        "2025-01-01T00:00:00" :=
  (C2_deterministic_up_to_timestamp npSqrtLinear id 1 "f" (0, 0, 0, 0) [] none 18
    "2025-01-01T00:00:00" "2025-01-01T00:00:00").2 rfl

/-- C5 (counterexample): a single-cell zone with VWC 0.2246 (default
θ_fc 0.25, hence target 0.225) yields `IRRIGATION_RECOMMENDED` with
recommended duration `int(0.0004·100·15) = 0` and confidence 0.5 — a
`RECOMMENDED` decision need have neither duration > 0 nor
confidence > 0.7. -/
theorem C5_counterexample :
    ((analyze_zone_for_irrigation {} "z" "f" [cellC5a] {} "T").2.status =
      IrrigationZoneStatus.IRRIGATION_RECOMMENDED) ∧
    ¬(0 < (analyze_zone_for_irrigation {} "z" "f" [cellC5a] {} "T").2.recommended_duration_minutes) ∧
    ¬((7:ℚ)/10 < (analyze_zone_for_irrigation {} "z" "f" [cellC5a] {} "T").2.confidence) := by
  refine ⟨?_, ?_, ?_⟩ <;> decide

/-- C5 (amended): every decision returned with status `RECOMMENDED`
has 0 ≤ duration ≤ 120 and 0.5 ≤ confidence ≤ 1; a decision actually
fires (`should_irrigate`) only when moreover confidence > 0.7 and
duration > 0. -/
theorem C5_recommended_bounds (c : VRIController) (zone_id field_id : String)
    (grid_cells : List KrigingCell) (soil : SoilProperties) (now : String) :
    (((analyze_zone_for_irrigation c zone_id field_id grid_cells soil now).2.status =
        IrrigationZoneStatus.IRRIGATION_RECOMMENDED) →
      0 ≤ (analyze_zone_for_irrigation c zone_id field_id grid_cells soil now).2.recommended_duration_minutes ∧
      (analyze_zone_for_irrigation c zone_id field_id grid_cells soil now).2.recommended_duration_minutes ≤ 120 ∧
      (1:ℚ)/2 ≤ (analyze_zone_for_irrigation c zone_id field_id grid_cells soil now).2.confidence ∧
      (analyze_zone_for_irrigation c zone_id field_id grid_cells soil now).2.confidence ≤ 1) ∧
    (should_irrigate (analyze_zone_for_irrigation c zone_id field_id grid_cells soil now).2 = true →
      (analyze_zone_for_irrigation c zone_id field_id grid_cells soil now).2.status =
        IrrigationZoneStatus.IRRIGATION_RECOMMENDED ∧
      (7:ℚ)/10 < (analyze_zone_for_irrigation c zone_id field_id grid_cells soil now).2.confidence ∧
      0 < (analyze_zone_for_irrigation c zone_id field_id grid_cells soil now).2.recommended_duration_minutes) := by
  constructor
  · intro hrec
    match grid_cells with
    | [] => simp [analyze_zone_for_irrigation] at hrec
    | x :: xs =>
      clear hrec
      simp only [analyze_zone_for_irrigation]
      refine ⟨?_, ?_, ?_, ?_⟩
      · split_ifs with h1 h2 h3
        · exact le_refl 0
        · exact le_refl 0
        · refine le_min ?_ (by norm_num)
          have hdef : (0:ℚ) ≤ (soil.field_capacity.getD (1/4) * (9/10) -
              ((x :: xs).map (·.estimated_vwc)).sum /
                (((x :: xs).map (·.estimated_vwc)).length : ℚ)) * 100 * 15 := by
            have h := h3.1
            nlinarith [h]
          simp only [pyInt, if_pos hdef]
          exact Int.le_floor.mpr (by exact_mod_cast hdef)
        · exact le_refl 0
      · split_ifs with h1 h2 h3
        · norm_num
        · norm_num
        · exact min_le_right _ _
        · norm_num
      · split_ifs with hlen
        · exact le_max_left _ _
        · exact le_refl _
      · split_ifs with hlen
        · refine max_le (by norm_num) ?_
          have hvar : (0:ℚ) ≤ (((x :: xs).map (·.estimated_vwc)).map
              (fun v => (v - ((x :: xs).map (·.estimated_vwc)).sum /
                (((x :: xs).map (·.estimated_vwc)).length : ℚ)) ^ 2)).sum /
              (((x :: xs).map (·.estimated_vwc)).length : ℚ) := by
            refine div_nonneg (List.sum_nonneg ?_) (by positivity)
            intro y hy
            obtain ⟨v, _, rfl⟩ := List.mem_map.mp hy
            positivity
          nlinarith [hvar]
        · norm_num
  · intro hfire
    simp only [should_irrigate, Bool.and_eq_true, beq_iff_eq, decide_eq_true_eq] at hfire
    exact ⟨hfire.1.1, hfire.1.2, hfire.2⟩

/-- Witness for C5 (amended): a zone at VWC 0.20 (target 0.225) is
RECOMMENDED with duration 37 ∈ (0, 120] and confidence 0.5 ∈ [0.5, 1]. -/
theorem C5_witness :
    ((analyze_zone_for_irrigation {} "z" "f" [cellC5b] {} "T").2.status =
      IrrigationZoneStatus.IRRIGATION_RECOMMENDED) ∧
    (0 ≤ (analyze_zone_for_irrigation {} "z" "f" [cellC5b] {} "T").2.recommended_duration_minutes ∧
     (analyze_zone_for_irrigation {} "z" "f" [cellC5b] {} "T").2.recommended_duration_minutes ≤ 120 ∧
     (1:ℚ)/2 ≤ (analyze_zone_for_irrigation {} "z" "f" [cellC5b] {} "T").2.confidence ∧
     (analyze_zone_for_irrigation {} "z" "f" [cellC5b] {} "T").2.confidence ≤ 1) :=
  ⟨by decide,
   (C5_recommended_bounds {} "z" "f" [cellC5b] {} "T").1 (by decide)⟩

/-- C3: the deep-percolation interlock has first-match priority — for
every non-empty cell list, if any cell at depth ≥ 42 in. has VWC above
the 0.42 threshold, the decision's status is `DEEP_PERCOLATION_RISK`
(whatever the saturation / recommendation statistics are), and, when an
audit logger is attached, exactly one `deep_percolation_alert` event is
appended to the audit log. -/
theorem C3_deep_percolation_first_match (c : VRIController)
    (zone_id field_id : String) (grid_cells : List KrigingCell)
    (soil : SoilProperties) (now : String)
    (hne : grid_cells ≠ [])
    (hrisk : ∃ cell ∈ grid_cells, 42 ≤ cell.depth_inches ∧
      deep_percolation_threshold < cell.estimated_vwc) :
    ((analyze_zone_for_irrigation c zone_id field_id grid_cells soil now).2.status =
      IrrigationZoneStatus.DEEP_PERCOLATION_RISK) ∧
    (c.has_audit_logger = true →
      ((analyze_zone_for_irrigation c zone_id field_id grid_cells soil now).1.audit_log).map
          AuditEvent.event_type =
        c.audit_log.map AuditEvent.event_type ++ ["deep_percolation_alert"]) := by
  match grid_cells, hne with
  | x :: xs, _ =>
    have hpos : 0 < List.countP
        (fun cell => decide (deep_percolation_threshold < cell.estimated_vwc))
        (List.filter (fun cell => decide ((42:ℤ) ≤ cell.depth_inches)) (x :: xs)) := by
      rw [List.countP_pos_iff]
      obtain ⟨cell, hmem, hd, hv⟩ := hrisk
      exact ⟨cell, List.mem_filter.mpr ⟨hmem, by simpa using hd⟩, by simpa using hv⟩
    simp only [analyze_zone_for_irrigation]
    rw [if_pos hpos]
    exact ⟨rfl, fun hl => by simp [emitIf, hl]⟩

/-- Witness for C3: one cell at depth 42 with VWC 0.50 on a fresh
controller (audit logger attached, empty audit log). -/
theorem C3_witness :
    ((analyze_zone_for_irrigation {} "z" "f" [cellC3] {} "T").2.status =
      IrrigationZoneStatus.DEEP_PERCOLATION_RISK) ∧
    ((analyze_zone_for_irrigation {} "z" "f" [cellC3] {} "T").1.audit_log).map
        AuditEvent.event_type = ["deep_percolation_alert"] := by
  have h := C3_deep_percolation_first_match {} "z" "f" [cellC3] {} "T"
    (by decide) (by decide)
  exact ⟨h.1, h.2 rfl⟩

theorem find?_map_setKey {α : Type} (k k' : String) (v : α) (h : k' ≠ k) :
    ∀ l : List (String × α),
      (l.map (fun p => if p.1 == k then (k, v) else p)).find? (fun p => p.1 == k') =
        l.find? (fun p => p.1 == k')
  | [] => rfl
  | p :: t => by
    by_cases hpk : p.1 == k
    · have hp1 : p.1 = k := by simpa using hpk
      have hkk : (k == k') = false := by
        simp [BEq.beq]
        exact fun he => h he.symm
      simp only [List.map_cons, List.find?, hpk, if_pos, hp1, hkk]
      simpa [hkk] using find?_map_setKey k k' v h t
    · by_cases hpk' : p.1 == k'
      · simp [List.find?, hpk, hpk']
      · simp only [List.map_cons, List.find?, hpk, if_neg, Bool.false_eq_true,
          not_false_eq_true, hpk']
        simpa [hpk, hpk'] using find?_map_setKey k k' v h t

theorem lookupAssoc_setAssoc_self {α : Type} (l : List (String × α)) (k : String) (v : α) :
    lookupAssoc (setAssoc l k v) k = some v := by
  unfold setAssoc
  by_cases hany : l.any (fun p => p.1 == k)
  · rw [if_pos hany]
    induction l with
    | nil => simp at hany
    | cons p t ih =>
      by_cases hpk : p.1 == k
      · simp [lookupAssoc, List.find?, hpk]
      · simp only [List.any_cons, hpk, Bool.false_or] at hany
        simpa [lookupAssoc, List.find?, hpk] using ih hany
  · rw [if_neg hany]
    induction l with
    | nil => simp [lookupAssoc, List.find?]
    | cons p t ih =>
      simp only [List.any_cons, Bool.or_eq_true, not_or] at hany
      have hpk : (p.1 == k) = false := by
        cases hb : (p.1 == k) with
        | true => exact absurd hb hany.1
        | false => rfl
      simp only [List.cons_append, lookupAssoc, List.find?, hpk]
      exact ih (by simpa using hany.2)

theorem lookupAssoc_setAssoc_ne {α : Type} (l : List (String × α)) (k k' : String)
    (v : α) (h : k' ≠ k) :
    lookupAssoc (setAssoc l k v) k' = lookupAssoc l k' := by
  unfold setAssoc
  by_cases hany : l.any (fun p => p.1 == k)
  · rw [if_pos hany]
    unfold lookupAssoc
    rw [find?_map_setKey k k' v h l]
  · rw [if_neg hany]
    induction l with
    | nil =>
      have : (k == k') = false := by
        simp [BEq.beq]
        exact fun he => h he.symm
      simp [lookupAssoc, List.find?, this]
    | cons p t ih =>
      simp only [List.any_cons, Bool.or_eq_true, not_or] at hany
      by_cases hpk' : p.1 == k'
      · simp [lookupAssoc, List.find?, hpk']
      · simp only [List.cons_append, lookupAssoc, List.find?, hpk']
        simpa [lookupAssoc, hpk'] using ih (by simpa using hany.2)

theorem stopFold_valves_closed (user_id v : String) :
    ∀ (l : List (String × ActiveIrrigationInfo)) (a : VRIController),
      (lookupAssoc a.valve_states v = some ValveState.CLOSED ∨
        ∃ zi ∈ l, zi.2.valve_id = v) →
      lookupAssoc (l.foldl (emergencyStopStep user_id) a).valve_states v =
        some ValveState.CLOSED
  | [], a, h => by
    cases h with
    | inl h => simpa using h
    | inr h => obtain ⟨zi, hmem, _⟩ := h; cases hmem
  | zi :: t, a, h => by
    have step : (emergencyStopStep user_id a zi).valve_states =
        setAssoc a.valve_states zi.2.valve_id ValveState.CLOSED := rfl
    by_cases hv : zi.2.valve_id = v
    · refine stopFold_valves_closed user_id v t _ (Or.inl ?_)
      rw [step, ← hv]
      exact lookupAssoc_setAssoc_self _ _ _
    · cases h with
      | inl h =>
        refine stopFold_valves_closed user_id v t _ (Or.inl ?_)
        rw [step, lookupAssoc_setAssoc_ne _ _ _ _ (fun he => hv he.symm)]
        exact h
      | inr h =>
        obtain ⟨zj, hmem, hj⟩ := h
        rcases List.mem_cons.mp hmem with rfl | hmem'
        · exact absurd hj hv
        · exact stopFold_valves_closed user_id v t _ (Or.inr ⟨zj, hmem', hj⟩)

theorem stopFold_valves_other (user_id v : String) :
    ∀ (l : List (String × ActiveIrrigationInfo)) (a : VRIController),
      (∀ zi ∈ l, zi.2.valve_id ≠ v) →
      lookupAssoc (l.foldl (emergencyStopStep user_id) a).valve_states v =
        lookupAssoc a.valve_states v
  | [], _, _ => rfl
  | zi :: t, a, h => by
    have hne : zi.2.valve_id ≠ v := h zi (List.mem_cons_self zi t)
    have ht := stopFold_valves_other user_id v t (emergencyStopStep user_id a zi)
      (fun zj hm => h zj (List.mem_cons_of_mem zi hm))
    have hstep : lookupAssoc (emergencyStopStep user_id a zi).valve_states v =
        lookupAssoc a.valve_states v :=
      lookupAssoc_setAssoc_ne _ _ _ _ (fun he => hne he.symm)
    exact ht.trans hstep

theorem stopFold_logger (user_id : String) :
    ∀ (l : List (String × ActiveIrrigationInfo)) (a : VRIController),
      (l.foldl (emergencyStopStep user_id) a).has_audit_logger = a.has_audit_logger
  | [], _ => rfl
  | zi :: t, a => stopFold_logger user_id t (emergencyStopStep user_id a zi)

theorem stopFold_log_mono (user_id : String) (e : AuditEvent) :
    ∀ (l : List (String × ActiveIrrigationInfo)) (a : VRIController),
      e ∈ a.audit_log → e ∈ (l.foldl (emergencyStopStep user_id) a).audit_log
  | [], _, h => h
  | zi :: t, a, h =>
    stopFold_log_mono user_id e t (emergencyStopStep user_id a zi)
      (List.mem_append_left _ h)

theorem stopFold_events (user_id : String) :
    ∀ (l : List (String × ActiveIrrigationInfo)) (a : VRIController),
      a.has_audit_logger = true →
      ∀ zi ∈ l, ∃ e ∈ (l.foldl (emergencyStopStep user_id) a).audit_log,
        e.event_type = "emergency_stop"
  | [], _, _, zi, hm => by cases hm
  | zj :: t, a, hl, zi, hm => by
    rcases List.mem_cons.mp hm with rfl | hm'
    · refine ⟨{ event_type := "emergency_stop"
                user_id := user_id
                details := [("zone_id", .str zi.1), ("valve_id", .str zi.2.valve_id),
                  ("reason", .str "emergency_stop_all")] }, ?_, rfl⟩
      refine stopFold_log_mono user_id _ t _ ?_
      simp [emergencyStopStep, emitIf, hl]
    · exact stopFold_events user_id t _ (by simpa [emergencyStopStep] using hl) zi hm'

/-- C4 (counterexample): `emergency_stop_all` closes only the valves
recorded in `active_irrigation`.  A valve in state `OPEN` outside that
bookkeeping stays `OPEN`, and a valve opened through `manual_override`
(state `MANUAL_OVERRIDE`, not bookkept) keeps its state — neither is
driven to `CLOSED` as the claim demands. -/
theorem C4_counterexample :
    lookupAssoc ctrlC4.valve_states "v1" = some ValveState.OPEN ∧
    lookupAssoc (emergency_stop_all ctrlC4 "system").valve_states "v1" =
      some ValveState.OPEN ∧
    (emergency_stop_all
        (manual_override {} "v2" "open" "operator" "inspection" none "T").1
        "system").valve_states = [("v2", ValveState.MANUAL_OVERRIDE)] := by
  refine ⟨?_, ?_, ?_⟩ <;> decide

/-- C4 (amended): after `emergency_stop_all`, the active-irrigation set
is empty, every valve referenced by an active-irrigation entry is
`CLOSED` with an `emergency_stop` audit event logged per entry (when a
logger is attached), and every valve not referenced by the bookkeeping
keeps its previous state. -/
theorem C4_emergency_stop_spec (c : VRIController) (user_id : String) :
    (emergency_stop_all c user_id).active_irrigation = [] ∧
    (∀ zi ∈ c.active_irrigation,
      lookupAssoc (emergency_stop_all c user_id).valve_states zi.2.valve_id =
        some ValveState.CLOSED) ∧
    (∀ v : String, (∀ zi ∈ c.active_irrigation, zi.2.valve_id ≠ v) →
      lookupAssoc (emergency_stop_all c user_id).valve_states v =
        lookupAssoc c.valve_states v) ∧
    (c.has_audit_logger = true → ∀ zi ∈ c.active_irrigation,
      ∃ e ∈ (emergency_stop_all c user_id).audit_log,
        e.event_type = "emergency_stop") := by
  refine ⟨rfl, ?_, ?_, ?_⟩
  · intro zi hm
    exact stopFold_valves_closed user_id zi.2.valve_id c.active_irrigation c
      (Or.inr ⟨zi, hm, rfl⟩)
  · intro v hv
    exact stopFold_valves_other user_id v c.active_irrigation c hv
  · intro hl zi hm
    exact stopFold_events user_id c.active_irrigation c hl zi hm

/-- Witness for C4 (amended): a controller with one active zone on an
OPEN valve — after the stop the valve is CLOSED, the active set is
empty and an `emergency_stop` event is logged. -/
theorem C4_witness :
    (emergency_stop_all ctrlC4w "system").active_irrigation = [] ∧
    lookupAssoc (emergency_stop_all ctrlC4w "system").valve_states "v1" =
      some ValveState.CLOSED ∧
    (∃ e ∈ (emergency_stop_all ctrlC4w "system").audit_log,
      e.event_type = "emergency_stop") := by
  have h := C4_emergency_stop_spec ctrlC4w "system"
  refine ⟨h.1, ?_, ?_⟩
  · exact h.2.1 ("z1", ⟨"T0", 30, 9/40, "v1"⟩) (by decide)
  · exact h.2.2.2 rfl ("z1", ⟨"T0", 30, 9/40, "v1"⟩) (by decide)

theorem shiftTexture_pos (c : SoilCoefficients) (residual lr : ℚ) (hlr : 0 ≤ lr)
    (hs : 0 < c.sand_ratio) (hsi : 0 < c.silt_ratio) (hc : 0 < c.clay_ratio) :
    0 < (shiftTexture c residual lr).sand_ratio ∧
    0 < (shiftTexture c residual lr).silt_ratio ∧
    0 < (shiftTexture c residual lr).clay_ratio := by
  unfold shiftTexture
  split_ifs with hr
  · refine ⟨lt_max_of_lt_left (by norm_num), hsi, lt_min (by norm_num) (by linarith)⟩
  · refine ⟨lt_min (by norm_num) (by linarith), hsi, lt_max_of_lt_left (by norm_num)⟩

theorem renormalizeTexture_spec (c1 : SoilCoefficients)
    (hs : 0 < c1.sand_ratio) (hsi : 0 < c1.silt_ratio) (hc : 0 < c1.clay_ratio) :
    0 < (renormalizeTexture c1).sand_ratio ∧
    0 < (renormalizeTexture c1).silt_ratio ∧
    0 < (renormalizeTexture c1).clay_ratio ∧
    (renormalizeTexture c1).sand_ratio + (renormalizeTexture c1).silt_ratio +
      (renormalizeTexture c1).clay_ratio = 1 ∧
    (renormalizeTexture c1).sand_ratio ≤ 1 ∧
    (renormalizeTexture c1).clay_ratio ≤ 1 := by
  have htot : 0 < c1.sand_ratio + c1.silt_ratio + c1.clay_ratio := by linarith
  unfold renormalizeTexture
  refine ⟨div_pos hs htot, div_pos hsi htot, div_pos hc htot, ?_, ?_, ?_⟩
  · field_simp
  · rw [div_le_one htot]; linarith
  · rw [div_le_one htot]; linarith

theorem update_from_residual_inv (pow10 : ℚ → ℚ) (hpow : ∀ q, 0 < pow10 q)
    (c : SoilCoefficients) (residual lr : ℚ) (hlr : 0 ≤ lr)
    (h : soilInv c) : soilInv (update_from_residual pow10 c residual lr) := by
  obtain ⟨hs, hsi, hc, hsum, hwf, hf2, hk⟩ := h
  unfold update_from_residual
  split_ifs with hres
  · exact ⟨hs, hsi, hc, hsum, hwf, hf2, hk⟩
  · obtain ⟨hs1, hsi1, hc1⟩ := shiftTexture_pos c residual lr hlr hs hsi hc
    obtain ⟨hs2, hsi2, hc2, hsum2, hsle, hcle⟩ :=
      renormalizeTexture_spec (shiftTexture c residual lr) hs1 hsi1 hc1
    set c2 := renormalizeTexture (shiftTexture c residual lr) with hc2def
    refine ⟨hs2, hsi2, hc2, hsum2, ?_, ?_, ?_⟩
    · show 26/1000 + (5/1000) * c2.clay_ratio ≤
        2576/10000 - (2/1000) * c2.sand_ratio + (36/10000) * c2.clay_ratio
      nlinarith [hs2, hc2, hsle, hcle]
    · show 2576/10000 - (2/1000) * c2.sand_ratio + (36/10000) * c2.clay_ratio ≤ 1/2
      nlinarith [hs2, hc2, hsle, hcle]
    · show 0 < pow10 (-(3/5) + (13/10) * c2.sand_ratio - (3/5) * c2.clay_ratio) * 100
      exact mul_pos (hpow _) (by norm_num)

theorem applyResidualUpdates_inv (pow10 : ℚ → ℚ) (hpow : ∀ q, 0 < pow10 q) :
    ∀ (updates : List (ℚ × ℚ)) (c : SoilCoefficients),
      (∀ u ∈ updates, 0 ≤ u.2) → soilInv c →
      soilInv (applyResidualUpdates pow10 c updates)
  | [], _, _, h => h
  | u :: t, c, hlr, h =>
    applyResidualUpdates_inv pow10 hpow t (update_from_residual pow10 c u.1 u.2)
      (fun v hv => hlr v (List.mem_cons_of_mem u hv))
      (update_from_residual_inv pow10 hpow c u.1 u.2
        (hlr u (List.mem_cons_self u t)) h)

/-- C6: starting from the default coefficients of a zone, after any
sequence of residual updates (each with a nonnegative learning rate,
and with the backend power `10 ** e` positive), the soil parameters
satisfy θ_pwp ≤ θ_fc ≤ 0.5, sand+silt+clay = 1 within 10⁻⁹, and
K_sat > 0; the inductive invariant `soilInv` is preserved by every
single update (`update_from_residual_inv`), which is how this is
proved. -/
theorem C6_soil_parameter_invariants (pow10 : ℚ → ℚ)
    (hpow : ∀ q, 0 < pow10 q) (zone_id : String)
    (updates : List (ℚ × ℚ)) (hlr : ∀ u ∈ updates, 0 ≤ u.2) :
    (applyResidualUpdates pow10 (defaultCoefficients zone_id) updates).wilting_point ≤
      (applyResidualUpdates pow10 (defaultCoefficients zone_id) updates).field_capacity ∧
    (applyResidualUpdates pow10 (defaultCoefficients zone_id) updates).field_capacity ≤ 1/2 ∧
    |(applyResidualUpdates pow10 (defaultCoefficients zone_id) updates).sand_ratio +
      (applyResidualUpdates pow10 (defaultCoefficients zone_id) updates).silt_ratio +
      (applyResidualUpdates pow10 (defaultCoefficients zone_id) updates).clay_ratio - 1| ≤
        1/1000000000 ∧
    0 < (applyResidualUpdates pow10 (defaultCoefficients zone_id) updates).ksat := by
  have hdef : soilInv (defaultCoefficients zone_id) := by
    unfold soilInv defaultCoefficients
    norm_num
  have h := applyResidualUpdates_inv pow10 hpow updates (defaultCoefficients zone_id)
    hlr hdef
  obtain ⟨_, _, _, hsum, hwf, hf2, hk⟩ := h
  exact ⟨hwf, hf2, by rw [hsum]; norm_num, hk⟩

/-- Witness for C6: the constant backend power 1 and one effective
update with residual 0.1 at the default learning rate 0.05. -/
theorem C6_witness :
    (applyResidualUpdates (fun _ => 1) (defaultCoefficients "z")
        [(1/10, 1/20)]).wilting_point ≤
      (applyResidualUpdates (fun _ => 1) (defaultCoefficients "z")
        [(1/10, 1/20)]).field_capacity ∧
    (applyResidualUpdates (fun _ => 1) (defaultCoefficients "z")
        [(1/10, 1/20)]).field_capacity ≤ 1/2 ∧
    |(applyResidualUpdates (fun _ => 1) (defaultCoefficients "z")
        [(1/10, 1/20)]).sand_ratio +
      (applyResidualUpdates (fun _ => 1) (defaultCoefficients "z")
        [(1/10, 1/20)]).silt_ratio +
      (applyResidualUpdates (fun _ => 1) (defaultCoefficients "z")
        [(1/10, 1/20)]).clay_ratio - 1| ≤ 1/1000000000 ∧
    0 < (applyResidualUpdates (fun _ => 1) (defaultCoefficients "z")
        [(1/10, 1/20)]).ksat :=
  C6_soil_parameter_invariants (fun _ => 1) (fun _ => one_pos) "z"
    [(1/10, 1/20)] (by decide)

theorem get_or_create_last_predictions (f : RecursiveBayesianFilter) (zone_id : String) :
    (get_or_create_coefficients f zone_id).1.last_predictions = f.last_predictions := by
  unfold get_or_create_coefficients
  cases lookupAssoc f.coefficients zone_id <;> rfl

/-- C7 (counterexample): on a fresh filter (zone "z", depth 18,
ET = 24 mm/day, 24 h elapsed) the code predicts
0.25 − (24·24/24)/1000·0.6 = 0.2356, while the claim's formula — whose
ET-loss term `(ET·hours/24)·f_depth` omits the source's mm→fraction
division by 1000 — clamps 0.25 − 14.4 to the wilting point 0.08. -/
theorem C7_counterexample :
    (predict defaultFilter "z" 0 0 18 24 24 "T").2.predicted_vwc ≠
      specPredictedVwcClaim defaultFilter "z" 18 24 24 := by
  decide

/-- C7 (amended): `predict` returns exactly the spec's water-balance
state with the ET loss corrected to `(ET·hours/24)/1000·f_depth`:
VWC = clamp(baseline − ET_loss − drainage, [θ_pwp, 0.5]) with drainage
= min(excess, K_sat/100·hours/24·0.1) above field capacity and 0
otherwise, prediction variance = σ²·(1 + hours/24) and confidence
= 1/(1 + variance). -/
theorem C7_predict_formula (f : RecursiveBayesianFilter) (zone_id : String)
    (latitude longitude : ℚ) (depth_inches : ℤ)
    (et_rate_mm_day hours_since_last : ℚ) (now : String) :
    (predict f zone_id latitude longitude depth_inches et_rate_mm_day
        hours_since_last now).2.predicted_vwc =
      specPredictedVwcAmended f zone_id depth_inches et_rate_mm_day
        hours_since_last ∧
    (predict f zone_id latitude longitude depth_inches et_rate_mm_day
        hours_since_last now).2.prediction_variance =
      (zoneCoefficients f zone_id).coefficient_variance *
        (1 + hours_since_last / 24) ∧
    (predict f zone_id latitude longitude depth_inches et_rate_mm_day
        hours_since_last now).2.confidence =
      1 / (1 + (zoneCoefficients f zone_id).coefficient_variance *
        (1 + hours_since_last / 24)) := by
  unfold predict specPredictedVwcAmended zoneCoefficients predictBaseline
    specDrainage fDepth
  refine ⟨?_, ?_, ?_⟩
  · simp only [get_or_create_last_predictions, zoneCoefficients]
    cases lookupAssoc f.last_predictions (zone_id ++ "_" ++ toString depth_inches) <;>
      ring_nf
  · simp only [get_or_create_last_predictions, zoneCoefficients]
  · simp only [get_or_create_last_predictions, zoneCoefficients]

theorem argminAux_correct : ∀ (l : List ℚ) (i b : ℕ) (bv : ℚ),
    (argminAux i b bv l = b ∧ ∀ y ∈ l, bv ≤ y) ∨
    (∃ j, j < l.length ∧ argminAux i b bv l = i + j ∧ l.getD j 0 ≤ bv ∧
      ∀ y ∈ l, l.getD j 0 ≤ y)
  | [], i, b, bv => Or.inl ⟨rfl, by simp⟩
  | x :: xs, i, b, bv => by
    by_cases hx : x < bv
    · have heq : argminAux i b bv (x :: xs) = argminAux (i + 1) i x xs := by
        simp [argminAux, hx]
      rcases argminAux_correct xs (i + 1) i x with ⟨he, hall⟩ | ⟨j, hj, he, hle, hall⟩
      · refine Or.inr ⟨0, by simp, by simp [heq, he], by simpa using le_of_lt hx, ?_⟩
        intro y hy
        rcases List.mem_cons.mp hy with rfl | hy'
        · simp
        · simpa using hall y hy'
      · refine Or.inr ⟨j + 1, by simpa using hj, ?_, ?_, ?_⟩
        · rw [heq, he]; omega
        · simpa using le_trans (by simpa using hle) (le_of_lt hx)
        · intro y hy
          rcases List.mem_cons.mp hy with rfl | hy'
          · simpa using hle
          · simpa using hall y hy'
    · have heq : argminAux i b bv (x :: xs) = argminAux (i + 1) b bv xs := by
        simp [argminAux, hx]
      rcases argminAux_correct xs (i + 1) b bv with ⟨he, hall⟩ | ⟨j, hj, he, hle, hall⟩
      · refine Or.inl ⟨by simp [heq, he], ?_⟩
        intro y hy
        rcases List.mem_cons.mp hy with rfl | hy'
        · exact not_lt.mp hx
        · exact hall y hy'
      · refine Or.inr ⟨j + 1, by simpa using hj, ?_, by simpa using hle, ?_⟩
        · rw [heq, he]; omega
        · intro y hy
          rcases List.mem_cons.mp hy with rfl | hy'
          · simpa using le_trans (by simpa using hle) (not_lt.mp hx)
          · simpa using hall y hy'

theorem argminIdx_lt_length (x : ℚ) (xs : List ℚ) :
    argminIdx (x :: xs) < (x :: xs).length := by
  show argminAux 1 0 x xs < (x :: xs).length
  rcases argminAux_correct xs 1 0 x with ⟨he, _⟩ | ⟨j, hj, he, _, _⟩
  · simp [he]
  · simp only [he, List.length_cons]; omega

theorem argminIdx_min (x : ℚ) (xs : List ℚ) :
    ∀ y ∈ x :: xs, (x :: xs).getD (argminIdx (x :: xs)) 0 ≤ y := by
  show ∀ y ∈ x :: xs, (x :: xs).getD (argminAux 1 0 x xs) 0 ≤ y
  rcases argminAux_correct xs 1 0 x with ⟨he, hall⟩ | ⟨j, hj, he, hle, hall⟩
  · intro y hy
    rcases List.mem_cons.mp hy with rfl | hy'
    · simp [he]
    · simpa [he] using hall y hy'
  · intro y hy
    have hgd : (x :: xs).getD (1 + j) 0 = xs.getD j 0 := by
      have : 1 + j = j + 1 := by omega
      rw [this, List.getD_cons_succ]
    rcases List.mem_cons.mp hy with rfl | hy'
    · rw [he, hgd]; exact hle
    · rw [he, hgd]; exact hall y hy'

theorem argminAux_map (f : ℚ → ℚ)
    (hf : ∀ x y : ℚ, 0 ≤ x → 0 ≤ y → (f x < f y ↔ x < y)) :
    ∀ (l : List ℚ) (i b : ℕ) (bv : ℚ), 0 ≤ bv → (∀ x ∈ l, 0 ≤ x) →
      argminAux i b (f bv) (l.map f) = argminAux i b bv l
  | [], _, _, _, _, _ => rfl
  | x :: xs, i, b, bv, hbv, hl => by
    have hx0 : 0 ≤ x := hl x (List.mem_cons_self x xs)
    have htail : ∀ z ∈ xs, 0 ≤ z := fun z hz => hl z (List.mem_cons_of_mem x hz)
    by_cases hx : x < bv
    · have hfx : f x < f bv := (hf x bv hx0 hbv).mpr hx
      simp only [List.map_cons, argminAux, if_pos hfx, if_pos hx]
      exact argminAux_map f hf xs (i + 1) i x hx0 htail
    · have hfx : ¬ f x < f bv := fun hc => hx ((hf x bv hx0 hbv).mp hc)
      simp only [List.map_cons, argminAux, if_neg hfx, if_neg hx]
      exact argminAux_map f hf xs (i + 1) b bv hbv htail

theorem argminIdx_map (f : ℚ → ℚ)
    (hf : ∀ x y : ℚ, 0 ≤ x → 0 ≤ y → (f x < f y ↔ x < y))
    (l : List ℚ) (hl : ∀ x ∈ l, 0 ≤ x) :
    argminIdx (l.map f) = argminIdx l := by
  cases l with
  | nil => rfl
  | cons x xs =>
    show argminAux 1 0 (f x) (xs.map f) = argminAux 1 0 x xs
    exact argminAux_map f hf xs 1 0 x (hl x (List.mem_cons_self x xs))
      (fun z hz => hl z (List.mem_cons_of_mem x hz))

theorem sqDistMeters_nonneg (lat1 lon1 lat2 lon2 : ℚ) :
    0 ≤ sqDistMeters lat1 lon1 lat2 lon2 := by
  unfold sqDistMeters
  positivity

theorem findIdx_getD_of_nodup :
    ∀ (l : List String), l.Nodup → ∀ i : ℕ, i < l.length →
      l.findIdx (fun s => s == l.getD i "unknown") = i
  | [], _, i, hi => by simp at hi
  | x :: xs, hnd, 0, _ => by
    simp [List.findIdx_cons]
  | x :: xs, hnd, i + 1, hi => by
    have hi' : i < xs.length := by simpa using hi
    have hgd : (x :: xs).getD (i + 1) "unknown" = xs.getD i "unknown" :=
      List.getD_cons_succ
    have hmem : xs.getD i "unknown" ∈ xs := by
      rw [List.getD_eq_getElem xs "unknown" hi']
      exact List.getElem_mem hi'
    have hx : (x == xs.getD i "unknown") = false := by
      rw [beq_eq_false_iff_ne]
      intro he
      exact (List.nodup_cons.mp hnd).1 (he ▸ hmem)
    rw [hgd, List.findIdx_cons, hx]
    simp only [cond_false]
    rw [findIdx_getD_of_nodup xs (List.nodup_cons.mp hnd).2 i hi']

theorem mem_gridCells (mk : ℚ → ℚ → ℕ → KrigingCell) (lats lons : List ℚ)
    (c : KrigingCell) (hc : c ∈ gridCells mk lats lons) :
    ∃ lat ∈ lats, ∃ lon ∈ lons, ∃ k, c = mk lat lon k := by
  unfold gridCells at hc
  rw [List.mem_flatten] at hc
  obtain ⟨row, hrow, hcrow⟩ := hc
  rw [List.mem_map] at hrow
  obtain ⟨il, hil, rfl⟩ := hrow
  rw [List.mem_map] at hcrow
  obtain ⟨jl, hjl, rfl⟩ := hcrow
  have hlat : il.2 ∈ lats := by
    rw [List.enum_eq_zip_range] at hil
    exact (List.of_mem_zip hil).2
  have hlon : jl.2 ∈ lons := by
    rw [List.enum_eq_zip_range] at hjl
    exact (List.of_mem_zip hjl).2
  exact ⟨il.2, hlat, jl.2, hlon, il.1 * lons.length + jl.1, rfl⟩

theorem argminIdx_lt_len_of_ne_nil (l : List ℚ) (h : l ≠ []) :
    argminIdx l < l.length := by
  cases l with
  | nil => exact absurd rfl h
  | cons x xs => exact argminIdx_lt_length x xs

theorem argminIdx_getD_min (l : List ℚ) (h : l ≠ []) :
    ∀ y ∈ l, l.getD (argminIdx l) 0 ≤ y := by
  cases l with
  | nil => exact absurd rfl h
  | cons x xs => exact argminIdx_min x xs

theorem gridPointCell_anchor (np_sqrt : ℚ → ℚ)
    (h5 : ∀ x : ℚ, 0 ≤ x → (np_sqrt x < 5 ↔ x < 25))
    (hmono : ∀ x y : ℚ, 0 ≤ x → 0 ≤ y → (np_sqrt x < np_sqrt y ↔ x < y))
    (field_id : String) (depth_inches : ℤ) (trend : Option (ℚ → ℚ → ℚ))
    (relevant : List SensorMeasurement)
    (hne : relevant ≠ [])
    (hnd : (relevant.map (fun m => m.sensor_id)).Nodup)
    (detrended : List ℚ) (K_inv : List (List ℚ)) (lat lon : ℚ) (k : ℕ)
    (hnear : ∃ m ∈ relevant, sqDistMeters lat lon m.latitude m.longitude < 25) :
    (gridPointCell np_sqrt field_id depth_inches trend
        (relevant.map (fun m => (m.latitude, m.longitude)))
        (relevant.map (fun m => m.vwc))
        (relevant.map (fun m => m.sensor_id)) detrended K_inv lat lon k).is_hard_anchor
        = true ∧
    (gridPointCell np_sqrt field_id depth_inches trend
        (relevant.map (fun m => (m.latitude, m.longitude)))
        (relevant.map (fun m => m.vwc))
        (relevant.map (fun m => m.sensor_id)) detrended K_inv lat lon k).estimation_variance
        = 0 ∧
    (gridPointCell np_sqrt field_id depth_inches trend
        (relevant.map (fun m => (m.latitude, m.longitude)))
        (relevant.map (fun m => m.vwc))
        (relevant.map (fun m => m.sensor_id)) detrended K_inv lat lon k).confidence
        = 1 ∧
    (gridPointCell np_sqrt field_id depth_inches trend
        (relevant.map (fun m => (m.latitude, m.longitude)))
        (relevant.map (fun m => m.vwc))
        (relevant.map (fun m => m.sensor_id)) detrended K_inv lat lon k).estimated_vwc
        = nearestProbeVwc relevant lat lon := by
  have hdists : (relevant.map (fun m => (m.latitude, m.longitude))).map
      (fun sc => np_sqrt (sqDistMeters lat lon sc.1 sc.2)) =
      (relevant.map (fun m => sqDistMeters lat lon m.latitude m.longitude)).map np_sqrt := by
    rw [List.map_map, List.map_map]
    rfl
  have hsqne : relevant.map (fun m => sqDistMeters lat lon m.latitude m.longitude) ≠ [] := by
    intro h
    exact hne (List.map_eq_nil_iff.mp h)
  have hsq0 : ∀ x ∈ relevant.map (fun m => sqDistMeters lat lon m.latitude m.longitude),
      0 ≤ x := by
    intro x hx
    obtain ⟨m, _, rfl⟩ := List.mem_map.mp hx
    exact sqDistMeters_nonneg lat lon m.latitude m.longitude
  have hidx : argminIdx ((relevant.map
      (fun m => sqDistMeters lat lon m.latitude m.longitude)).map np_sqrt) =
      argminIdx (relevant.map (fun m => sqDistMeters lat lon m.latitude m.longitude)) :=
    argminIdx_map np_sqrt hmono _ hsq0
  have hJlt : argminIdx (relevant.map (fun m => sqDistMeters lat lon m.latitude m.longitude)) <
      (relevant.map (fun m => sqDistMeters lat lon m.latitude m.longitude)).length :=
    argminIdx_lt_len_of_ne_nil _ hsqne
  have hJltm : argminIdx (relevant.map (fun m => sqDistMeters lat lon m.latitude m.longitude)) <
      ((relevant.map (fun m => sqDistMeters lat lon m.latitude m.longitude)).map np_sqrt).length := by
    simpa using hJlt
  have hgetd : ((relevant.map (fun m => sqDistMeters lat lon m.latitude m.longitude)).map
        np_sqrt).getD
      (argminIdx (relevant.map (fun m => sqDistMeters lat lon m.latitude m.longitude))) 0 =
      np_sqrt ((relevant.map (fun m => sqDistMeters lat lon m.latitude m.longitude)).getD
        (argminIdx (relevant.map (fun m => sqDistMeters lat lon m.latitude m.longitude))) 0) := by
    rw [List.getD_eq_getElem _ _ hJltm, List.getElem_map,
      List.getD_eq_getElem _ _ hJlt]
  have hlt5 : np_sqrt ((relevant.map (fun m => sqDistMeters lat lon m.latitude m.longitude)).getD
      (argminIdx (relevant.map (fun m => sqDistMeters lat lon m.latitude m.longitude))) 0) < 5 := by
    have hmem : (relevant.map (fun m => sqDistMeters lat lon m.latitude m.longitude)).getD
        (argminIdx (relevant.map (fun m => sqDistMeters lat lon m.latitude m.longitude))) 0 ∈
        relevant.map (fun m => sqDistMeters lat lon m.latitude m.longitude) := by
      rw [List.getD_eq_getElem _ _ hJlt]
      exact List.getElem_mem hJlt
    obtain ⟨m, hm, hm25⟩ := hnear
    have hy : sqDistMeters lat lon m.latitude m.longitude ∈
        relevant.map (fun m => sqDistMeters lat lon m.latitude m.longitude) :=
      List.mem_map_of_mem _ hm
    have hle := argminIdx_getD_min _ hsqne _ hy
    exact (h5 _ (hsq0 _ hmem)).mpr (lt_of_le_of_lt hle hm25)
  have hids : argminIdx (relevant.map (fun m => sqDistMeters lat lon m.latitude m.longitude)) <
      (relevant.map (fun m => m.sensor_id)).length := by
    simpa using hJlt
  simp only [gridPointCell]
  rw [hdists, hidx, hgetd, if_pos hlt5]
  refine ⟨rfl, rfl, rfl, ?_⟩
  show (relevant.map (fun m => m.vwc)).getD
      ((relevant.map (fun m => m.sensor_id)).findIdx
        (fun s => s == (relevant.map (fun m => m.sensor_id)).getD
          (argminIdx (relevant.map (fun m => sqDistMeters lat lon m.latitude m.longitude)))
          "unknown")) 0 = nearestProbeVwc relevant lat lon
  rw [findIdx_getD_of_nodup _ hnd _ hids]
  rfl

theorem gridPointCell_latlon (np_sqrt : ℚ → ℚ) (field_id : String)
    (depth_inches : ℤ) (trend : Option (ℚ → ℚ → ℚ))
    (sensor_coords : List (ℚ × ℚ)) (sensor_values : List ℚ)
    (sensor_ids : List String) (detrended : List ℚ) (K_inv : List (List ℚ))
    (lat lon : ℚ) (k : ℕ) :
    (gridPointCell np_sqrt field_id depth_inches trend sensor_coords
      sensor_values sensor_ids detrended K_inv lat lon k).latitude = lat ∧
    (gridPointCell np_sqrt field_id depth_inches trend sensor_coords
      sensor_values sensor_ids detrended K_inv lat lon k).longitude = lon := by
  simp only [gridPointCell]
  split <;> exact ⟨rfl, rfl⟩

/-- C9: in a grid generated with at least 3 depth-matching probes
carrying pairwise-distinct sensor ids, every output cell whose grid
point lies strictly within 5 m of some probe is a hard anchor: the flag
is set, the estimation variance is 0, the confidence is 1, and the
estimated VWC is exactly the nearest probe's reading.  The backend
`numpy.sqrt` enters through the two order hypotheses it satisfies. -/
theorem C9_hard_anchor (np_sqrt : ℚ → ℚ)
    (h5 : ∀ x : ℚ, 0 ≤ x → (np_sqrt x < 5 ↔ x < 25))
    (hmono : ∀ x y : ℚ, 0 ≤ x → 0 ≤ y → (np_sqrt x < np_sqrt y ↔ x < y))
    (matInv : List (List ℚ) → List (List ℚ)) (grid_resolution : ℚ)
    (field_id : String) (field_bounds : ℚ × ℚ × ℚ × ℚ)
    (sensor_measurements : List SensorMeasurement)
    (satellite_trend : Option (ℚ → ℚ → ℚ)) (depth_inches : ℤ)
    (hcount : 3 ≤ (sensor_measurements.filter
      (fun m => m.depth_inches == depth_inches)).length)
    (hnd : ((sensor_measurements.filter (fun m => m.depth_inches == depth_inches)).map
      (fun m => m.sensor_id)).Nodup)
    (c : KrigingCell)
    (hc : c ∈ generate_grid_cells np_sqrt matInv grid_resolution field_id
      field_bounds sensor_measurements satellite_trend depth_inches)
    (hnear : ∃ m ∈ sensor_measurements.filter (fun m => m.depth_inches == depth_inches),
      sqDistMeters c.latitude c.longitude m.latitude m.longitude < 25) :
    c.is_hard_anchor = true ∧ c.estimation_variance = 0 ∧ c.confidence = 1 ∧
    c.estimated_vwc = nearestProbeVwc
      (sensor_measurements.filter (fun m => m.depth_inches == depth_inches))
      c.latitude c.longitude := by
  have hnot3 : ¬((sensor_measurements.filter
      (fun m => m.depth_inches == depth_inches)).length < 3) := by omega
  have hne : sensor_measurements.filter (fun m => m.depth_inches == depth_inches) ≠ [] := by
    intro h
    rw [h] at hcount
    simp at hcount
  simp only [generate_grid_cells] at hc
  rw [if_neg hnot3] at hc
  obtain ⟨lat, _, lon, _, k, rfl⟩ := mem_gridCells _ _ _ _ hc
  obtain ⟨hlat, hlon⟩ := gridPointCell_latlon np_sqrt field_id depth_inches
    satellite_trend _ _ _ _ _ lat lon k
  rw [hlat, hlon] at hnear ⊢
  exact gridPointCell_anchor np_sqrt h5 hmono field_id depth_inches
    satellite_trend _ hne hnd _ _ lat lon k hnear

/-- Witness for C9: three probes at depth 18 (distinct ids), degenerate
bounds giving the single grid point (0,0) on which probe `s1` sits; the
emitted cell is the hard anchor with `s1`'s reading. -/
theorem C9_witness :
    cellC9.is_hard_anchor = true ∧ cellC9.estimation_variance = 0 ∧
    cellC9.confidence = 1 ∧
    cellC9.estimated_vwc = nearestProbeVwc
      (probesC9.filter (fun m => m.depth_inches == 18))
      cellC9.latitude cellC9.longitude := by
  refine C9_hard_anchor npSqrtLinear ?_ ?_ id 1 "f" (0, 0, 0, 0) probesC9 none 18
    (by decide) (by decide) cellC9 (by decide) (by decide)
  · intro x hx
    unfold npSqrtLinear
    constructor <;> intro h <;> linarith
  · intro x y hx hy
    unfold npSqrtLinear
    constructor <;> intro h <;> linarith
